import Mathlib

/-!
# DDNet game client core (`src/game/client/gameclient.cpp`)

A shallow embedding of the input multiplexer (`OnDummySwap`, `OnSnapInput`), the lifecycle
reset (`OnReset`), the position reconciler (`UpdatePositions`) and the identity watchdog at
the end of `OnRender`.

Conventions of the embedding:

* C++ `int` values are integers of `ℤ`. The counters that `OnSnapInput` advances
  (`m_DummyFire`, `m_Fire`) are wrapped to 32 bits after each addition (`wrapInt`).
* `float` values (positions, intra-tick fractions) are exact rationals; the float subtraction
  whose result `OnSnapInput` casts to `int` is rounded by `Externals.toFloat`.
* A pointer that may be null is an `Option`.
* Classes, functions and constants that are declared or defined outside `gameclient.cpp`
  are not guessed: the opaque part of a class is a type of `ExtTypes`, and a function or
  constant is a field of `Externals`.
-/

namespace GameClient

/-! ## Base types -/

/-- The `vec2` of `base/vmath.h`, with exact rational coordinates. -/
structure vec2 where
  x : ℚ
  y : ℚ
deriving DecidableEq

instance : Add vec2 := ⟨fun a b => ⟨a.x + b.x, a.y + b.y⟩⟩
instance : Sub vec2 := ⟨fun a b => ⟨a.x - b.x, a.y - b.y⟩⟩
instance : HMul vec2 ℚ vec2 := ⟨fun a f => ⟨a.x * f, a.y * f⟩⟩

/-- Modelled from the spec: `mix` of `base/math.h` is not part of `gameclient.cpp`; the spec
calls it a linear blend of two positions by a fraction, `a + (b - a) * amount`. -/
def mix (a b : vec2) (amount : ℚ) : vec2 := a + (b - a) * amount

/-- The value that a 32-bit `int` holds after an addition with the exact result `x`: the
result wrapped around in two's complement. -/
def wrapInt (x : ℤ) : ℤ := (x + 2147483648) % 4294967296 - 2147483648

/-- The C cast `(int)f` of a float: truncation towards zero. -/
def truncToInt (q : ℚ) : ℤ := if 0 ≤ q then ⌊q⌋ else ⌈q⌉

/-- An array `T a[NUM_DUMMIES]`, indexed by the controller slot: `0` is the primary
player, `1` the dummy. -/
structure PerDummy (α : Type) where
  a0 : α
  a1 : α
deriving DecidableEq

/-- Read `a[i]` for a slot index given as the truth value of `i != 0`. -/
def PerDummy.get {α : Type} (a : PerDummy α) (i : Bool) : α := if i then a.a1 else a.a0

/-- Write `a[i] = v`. -/
def PerDummy.set {α : Type} (a : PerDummy α) (i : Bool) (v : α) : PerDummy α :=
  if i then { a with a1 := v } else { a with a0 := v }

/-- The effect of `std::fill(std::begin(a), std::end(a), v)` on a two-slot array. -/
def PerDummy.fill {α : Type} (_a : PerDummy α) (v : α) : PerDummy α := ⟨v, v⟩

/-- The effect of `std::fill(std::begin(a), std::end(a), v)` on an array: every element is
overwritten, the length stays. -/
def fill {α : Type} (a : List α) (v : α) : List α := a.map (fun _ => v)

/-- The network object `CNetObj_PlayerInput` (one input frame). -/
structure CNetObj_PlayerInput where
  m_Direction : ℤ
  m_TargetX : ℤ
  m_TargetY : ℤ
  m_Jump : ℤ
  m_Fire : ℤ
  m_Hook : ℤ
  m_PlayerFlags : ℤ
  m_WantedWeapon : ℤ
  m_NextWeapon : ℤ
  m_PrevWeapon : ℤ
deriving DecidableEq

/-- Value initialisation `= {}` of an input frame: every member is zero. -/
def CNetObj_PlayerInput.zero : CNetObj_PlayerInput := ⟨0, 0, 0, 0, 0, 0, 0, 0, 0, 0⟩

/-- The members of `CNetObj_Character` that `gameclient.cpp` reads here. -/
structure CNetObj_Character where
  m_X : ℤ
  m_Y : ℤ
deriving DecidableEq

/-- The members of `CNetObj_GameInfo` that `gameclient.cpp` reads here. -/
structure CNetObj_GameInfo where
  m_GameStateFlags : ℤ
deriving DecidableEq

/-- The members of `CNetObj_SpectatorInfo` that `gameclient.cpp` reads here. -/
structure CNetObj_SpectatorInfo where
  m_SpectatorId : ℤ
  m_X : ℤ
  m_Y : ℤ
deriving DecidableEq

/-- The position of a snapshot object as a `vec2(m_X, m_Y)`. -/
def CNetObj_Character.pos (c : CNetObj_Character) : vec2 := ⟨(c.m_X : ℚ), (c.m_Y : ℚ)⟩

/-- The position of a spectator-info record as a `vec2(m_X, m_Y)`. -/
def CNetObj_SpectatorInfo.pos (c : CNetObj_SpectatorInfo) : vec2 := ⟨(c.m_X : ℚ), (c.m_Y : ℚ)⟩

/-- Read `a[i]` of a C array. An index outside the array is undefined behaviour in the
source; here it reads the value `oob`, about which nothing is known. -/
def arrayAt {α : Type} (a : List α) (i : ℤ) (oob : α) : α :=
  if 0 ≤ i then a.getD i.toNat oob else oob

/-- The cast `(int)u` of an `unsigned` configuration value. -/
def castInt (u : ℕ) : ℤ :=
  if u % 2 ^ 32 < 2 ^ 31 then ((u % 2 ^ 32 : ℕ) : ℤ) else ((u % 2 ^ 32 : ℕ) : ℤ) - 2 ^ 32

/-! ## State -/

/-- The classes that `gameclient.cpp` uses without ever looking inside: each is a type about
which nothing is assumed. -/
structure ExtTypes where
  /-- The `CGameInfo` of `m_GameInfo`. -/
  GameInfo : Type
  /-- A `CTuningParams`. -/
  Tuning : Type
  /-- A `CClientStats`. -/
  Stats : Type
  /-- The `CTeamsCore` of `m_Teams`. -/
  Teams : Type
  /-- The members of a `CGameWorld` other than `m_WorldConfig.m_InfiniteAmmo`. -/
  World : Type
  /-- An element of `m_vSnapEntities`. -/
  SnapEntity : Type
  /-- The `CCharOrder` of `m_CharOrder`. -/
  CharOrder : Type
  /-- The members of `CControls` other than `m_aInputData`. -/
  Controls : Type
  /-- The components of `m_vpAll` other than `m_Controls`. -/
  Components : Type
  /-- The editor behind `Editor()`. -/
  Editor : Type
  /-- The collision layer behind `Collision()`. -/
  Collision : Type
  /-- The map layers behind `Layers()`. -/
  Layers : Type
  /-- The members of a `CCharacterCore` other than `m_Pos`. -/
  Core : Type
  /-- The members of a `CClientData` that are not read here. -/
  ClientData : Type
  /-- The members of `m_Snap` that are not read here. -/
  Snap : Type
  /-- The members of `m_MultiView` other than `m_IsInit`. -/
  MultiView : Type

/-- The configuration variables of `g_Config` read or written by the embedded functions.
`m_ClDummy` is an `int` variable with range 0..1, used as a slot index. -/
structure CConfig where
  m_ClDummy : Bool
  m_ClDummyHammer : ℤ
  m_ClDummyRestoreWeapon : ℤ
  m_ClDummyResetOnSwitch : ℤ
  m_ClPredict : ℤ
  m_PlayerClan : String
  m_PlayerCountry : ℤ
  m_ClPlayerSkin : String
  m_ClPlayerUseCustomColor : ℤ
  m_ClPlayerColorBody : ℕ
  m_ClPlayerColorFeet : ℕ
  m_ClDummyClan : String
  m_ClDummyCountry : ℤ
  m_ClDummySkin : String
  m_ClDummyUseCustomColor : ℤ
  m_ClDummyColorBody : ℕ
  m_ClDummyColorFeet : ℕ
deriving DecidableEq

/-- The values that the engine client behind `Client()` reports during one call. -/
structure IClient where
  State : ℤ
  IntraGameTick : PerDummy ℚ
  PredIntraGameTick : PerDummy ℚ
  GameTick : PerDummy ℤ
  PrevGameTick : PerDummy ℤ
  DummyConnected : Bool
  IsSixup : Bool
  PlayerName : String
  DummyName : String
deriving DecidableEq

/-- A `CCharacterCore`: its position and the rest. -/
structure CCharacterCore (T : ExtTypes) where
  m_Pos : vec2
  m_Rest : T.Core

/-- A `CClientData` (element of `m_aClients`). -/
structure CClientData (T : ExtTypes) where
  m_aName : String
  m_aClan : String
  m_Country : ℤ
  m_aSkinName : String
  m_UseCustomColor : ℤ
  m_ColorBody : ℤ
  m_ColorFeet : ℤ
  m_Predicted : CCharacterCore T
  m_Rest : T.ClientData

/-- The `m_SpecInfo` member of the snapshot state. -/
structure CSpecInfo where
  m_Active : Bool
  m_SpectatorId : ℤ
  m_UsePosition : Bool
  m_Position : vec2
deriving DecidableEq

/-- An element of `m_Snap.m_aCharacters`. -/
structure CSnapCharacter where
  m_Prev : CNetObj_Character
  m_Cur : CNetObj_Character
deriving DecidableEq

/-- The snapshot state `m_Snap`. -/
structure CSnapState (T : ExtTypes) where
  m_pLocalCharacter : Option CNetObj_Character
  m_pLocalPrevCharacter : Option CNetObj_Character
  m_pGameInfoObj : Option CNetObj_GameInfo
  m_pSpectatorInfo : Option CNetObj_SpectatorInfo
  m_pPrevSpectatorInfo : Option CNetObj_SpectatorInfo
  m_SpecInfo : CSpecInfo
  m_aCharacters : List CSnapCharacter
  m_Rest : T.Snap

/-- The `CControls` component `m_Controls`. -/
structure CControls (T : ExtTypes) where
  m_aInputData : PerDummy CNetObj_PlayerInput
  m_Rest : T.Controls

/-- A `CGameWorld`. -/
structure CGameWorld (T : ExtTypes) where
  m_InfiniteAmmo : Bool
  m_Rest : T.World

/-- A call that announces the identity of a slot to the server. -/
inductive Announcement where
  /-- A call `SendInfo(Start)`, for the primary player. -/
  | SendInfo (Start : Bool)
  /-- A call `SendDummyInfo(Start)`, for the dummy. -/
  | SendDummyInfo (Start : Bool)
  /-- A call `SendSkinChange7(Dummy)`, for either slot of a 0.7 connection. -/
  | SendSkinChange7 (Dummy : Bool)
deriving DecidableEq

/-- The members of `CGameClient` that the embedded functions read or write, together with the
global configuration `g_Config`, the engine client and the collaborators they reach. The
last field, `Sent`, is not a member: it records, in order, the identity announcements that
the embedded functions called. -/
structure CGameClient (T : ExtTypes) where
  g_Config : CConfig
  Client : IClient
  m_Snap : CSnapState T
  m_EditorMovementDelay : ℤ
  m_PredictedTick : ℤ
  m_aLastNewPredictedTick : PerDummy ℤ
  m_LastRoundStartTick : ℤ
  m_LastRaceTick : ℤ
  m_LastFlagCarrierRed : ℤ
  m_LastFlagCarrierBlue : ℤ
  m_aCheckInfo : PerDummy ℤ
  m_aLastPos : List vec2
  m_aLastActive : List Bool
  m_GameOver : Bool
  m_GamePaused : Bool
  m_PrevLocalId : ℤ
  m_SuppressEvents : Bool
  m_NewTick : Bool
  m_NewPredictedTick : Bool
  m_aFlagDropTick : ℤ → ℤ
  m_ServerMode : ℤ
  m_GameInfo : T.GameInfo
  m_DemoSpecId : ℤ
  m_LocalCharacterPos : vec2
  m_PredictedPrevChar : CCharacterCore T
  m_PredictedChar : CCharacterCore T
  m_aLocalTuneZone : List ℤ
  m_aReceivedTuning : List Bool
  m_aExpectingTuningForZone : List ℤ
  m_aExpectingTuningSince : List ℤ
  m_aTuning : List T.Tuning
  m_aClients : List (CClientData T)
  m_aStats : List T.Stats
  m_NextChangeInfo : ℤ
  m_aLocalIds : PerDummy ℤ
  m_DummyInput : CNetObj_PlayerInput
  m_HammerInput : CNetObj_PlayerInput
  m_DummyFire : ℤ
  m_ReceivedDDNetPlayer : Bool
  m_Teams : T.Teams
  m_GameWorld : CGameWorld T
  m_PredictedWorld : CGameWorld T
  m_PrevPredictedWorld : CGameWorld T
  m_vSnapEntities : List T.SnapEntity
  m_aDDRaceMsgSent : List Bool
  m_aShowOthers : List ℤ
  m_aLastUpdateTick : List ℤ
  m_PredictedDummyId : ℤ
  m_IsDummySwapping : ℤ
  m_CharOrder : T.CharOrder
  m_aSwitchStateTeam : List ℤ
  m_LastShowDistanceZoom : ℚ
  m_LastZoom : ℚ
  m_LastScreenAspect : ℚ
  m_LastDeadzone : ℚ
  m_LastFollowFactor : ℚ
  m_LastDummyConnected : Bool
  m_MultiViewPersonalZoom : ℚ
  m_MultiViewActivated : Bool
  m_MultiView_m_IsInit : Bool
  m_MultiView_m_Rest : T.MultiView
  m_CursorInfo_m_CursorOwnerId : ℤ
  m_CursorInfo_m_NumSamples : ℤ
  m_Controls : CControls T
  m_vpAll : T.Components
  Editor : T.Editor
  Collision : T.Collision
  Layers : T.Layers
  Sent : List Announcement

/-- What one call of `OnSnapInput` leaves behind: the client state, the frame written to
`pData` (`none` when the buffer is not written) and the returned size. -/
structure SnapResult (T : ExtTypes) where
  state : CGameClient T
  pData : Option CNetObj_PlayerInput
  size : ℤ

/-- The constants and functions that `gameclient.cpp` uses and that are declared or defined
elsewhere. Nothing is assumed about them beyond their types, except that the size of an
input frame is positive, as the size of every C++ object is. -/
structure Externals (T : ExtTypes) where
  SPEC_FOLLOW : ℤ
  SPEC_FREEVIEW : ℤ
  WEAPON_HAMMER : ℤ
  GAMESTATEFLAG_GAMEOVER : ℤ
  TEAM_RED : ℤ
  TEAM_BLUE : ℤ
  SERVERMODE_PURE : ℤ
  SHOW_OTHERS_NOT_SET : ℤ
  STATE_ONLINE : ℤ
  STATE_DEMOPLAYBACK : ℤ
  MAX_CLIENTS : ℤ
  /-- The value of `sizeof(CNetObj_PlayerInput)`. -/
  sizeof_PlayerInput : ℤ
  sizeof_PlayerInput_pos : 0 < sizeof_PlayerInput
  /-- The all-zero `CGameInfo` that `mem_zero` leaves. -/
  zero_GameInfo : T.GameInfo
  /-- The default-constructed `CTuningParams()`. -/
  default_Tuning : T.Tuning
  /-- What a read beyond the end of `m_aClients` finds. -/
  oob_ClientData : CClientData T
  /-- What a read beyond the end of `m_Snap.m_aCharacters` finds. -/
  oob_SnapCharacter : CSnapCharacter
  /-- The method `CControls::ResetInput(int Dummy)`. -/
  ResetInput : CControls T → Bool → CControls T
  /-- The method `CControls::SnapInput(int *pData)`. -/
  SnapInput : CGameClient T → SnapResult T
  /-- The method `CGameClient::InvalidateSnapshot()`, which clears `m_Snap`. -/
  InvalidateSnapshot : CSnapState T → CSnapState T
  /-- The method `CCharacterCore::Reset()`. -/
  CharacterCore_Reset : CCharacterCore T → CCharacterCore T
  /-- The method `CClientData::Reset()`. -/
  ClientData_Reset : CClientData T → CClientData T
  /-- The method `CClientStats::Reset()`. -/
  ClientStats_Reset : T.Stats → T.Stats
  /-- The method `CTeamsCore::Reset()`. -/
  Teams_Reset : T.Teams → T.Teams
  /-- The method `CGameWorld::Clear()`. -/
  GameWorld_Clear : CGameWorld T → CGameWorld T
  /-- The method `CGameWorld::CopyWorld(pFrom)`: the receiver after the copy, from the
  receiver before it and the world copied from. -/
  CopyWorld : CGameWorld T → CGameWorld T → CGameWorld T
  /-- The method `CCharOrder::Reset()`. -/
  CharOrder_Reset : T.CharOrder → T.CharOrder
  /-- The loop `for(auto &pComponent : m_vpAll) pComponent->OnReset();` over the components,
  of which `m_Controls` is one. -/
  Components_OnReset : CControls T × T.Components → CControls T × T.Components
  /-- The method `ResetMentions()` of the editor. -/
  Editor_ResetMentions : T.Editor → T.Editor
  /-- The method `ResetIngameMoved()` of the editor. -/
  Editor_ResetIngameMoved : T.Editor → T.Editor
  /-- The method `Unload()` of the collision layer. -/
  Collision_Unload : T.Collision → T.Collision
  /-- The method `Unload()` of the map layers. -/
  Layers_Unload : T.Layers → T.Layers
  /-- The method `CGameClient::AntiPingPlayers()`. -/
  AntiPingPlayers : CGameClient T → Bool
  /-- The method `CGameClient::HandleMultiView()`. -/
  HandleMultiView : CGameClient T → CGameClient T
  /-- The method `CGameClient::ResetMultiView()`. -/
  ResetMultiView : CGameClient T → CGameClient T
  /-- The method `CGameClient::UpdateRenderedCharacters()`. -/
  UpdateRenderedCharacters : CGameClient T → CGameClient T
  /-- The end of the condition on line 740 of `gameclient.cpp`, which the source file cuts
  after `m_Snap.m_SpecInfo.m_Spec`: the second operand of
  `Client()->State() != IClient::STATE_DEMOPLAYBACK && ...`. -/
  LiveSpectateCond : CSpecInfo → Bool
  /-- The method `CMenus::IsActive()` of `m_Menus`. -/
  Menus_IsActive : T.Components → Bool
  /-- The method `CGameClient::GotWantedSkin7(bool Dummy)`. -/
  GotWantedSkin7 : CGameClient T → Bool → Bool
  /-- The method `CGameClient::SendSkinChange7(bool Dummy)`. -/
  SendSkinChange7 : CGameClient T → Bool → CGameClient T
  /-- The method `CGameClient::SendInfo(bool Start)`. -/
  SendInfo : CGameClient T → Bool → CGameClient T
  /-- The method `CGameClient::SendDummyInfo(bool Start)`. -/
  SendDummyInfo : CGameClient T → Bool → CGameClient T
  /-- The function `str_comp` of `base/system.h`. -/
  str_comp : String → String → ℤ
  /-- The method `CTeamsCore::Team(int ClientId)`. -/
  Teams_Team : T.Teams → ℤ → ℤ
  /-- The method `CGameClient::InitMultiView(int Team)`: its result and the state it leaves. -/
  InitMultiView : CGameClient T → ℤ → Bool × CGameClient T
  /-- Lines 779-806 of `OnRender`: the warning popup, the camera and spectator cursor update,
  the `OnRender` of every component, and the clearing of the input events. -/
  RenderSystems : CGameClient T → CGameClient T
  /-- The rounding of an exact result to the `float` that holds it. -/
  toFloat : ℚ → ℚ

/-! ## Input multiplexer -/

/-- `CGameClient::OnDummySwap` (lines 488-500). -/
def OnDummySwap {T : ExtTypes} (K : Externals T) (s : CGameClient T) : CGameClient T :=
  let s : CGameClient T :=
    if s.g_Config.m_ClDummyResetOnSwitch ≠ 0 then
      let PlayerOrDummy : Bool :=
        if s.g_Config.m_ClDummyResetOnSwitch = 2 then s.g_Config.m_ClDummy
        else !s.g_Config.m_ClDummy
      let s : CGameClient T := { s with m_Controls := K.ResetInput s.m_Controls PlayerOrDummy }
      let Input := s.m_Controls.m_aInputData.get PlayerOrDummy
      let aInputData := s.m_Controls.m_aInputData.set PlayerOrDummy { Input with m_Hook := 0 }
      { s with m_Controls := { s.m_Controls with m_aInputData := aInputData } }
    else s
  let tmp := s.m_DummyInput.m_Fire
  let s : CGameClient T :=
    { s with m_DummyInput := s.m_Controls.m_aInputData.get (!s.g_Config.m_ClDummy) }
  let Input := s.m_Controls.m_aInputData.get s.g_Config.m_ClDummy
  let aInputData := s.m_Controls.m_aInputData.set s.g_Config.m_ClDummy { Input with m_Fire := tmp }
  let s : CGameClient T := { s with m_Controls := { s.m_Controls with m_aInputData := aInputData } }
  { s with m_IsDummySwapping := 1 }

/-- `CGameClient::OnSnapInput` (lines 502-550). -/
def OnSnapInput {T : ExtTypes} (K : Externals T) (s : CGameClient T) (Dummy Force : Bool) :
    SnapResult T :=
  if !Dummy then
    K.SnapInput s
  else if s.g_Config.m_ClDummyHammer = 0 then
    let s : CGameClient T :=
      if s.m_DummyFire ≠ 0 then
        { s with
          m_DummyInput :=
            { s.m_DummyInput with
              m_Fire := Int.land (wrapInt (s.m_HammerInput.m_Fire + 1)) (Int.not 1) }
          m_DummyFire := 0 }
      else s
    if !Force && (s.m_DummyInput.m_Direction = 0 && s.m_DummyInput.m_Jump = 0
        && s.m_DummyInput.m_Hook = 0) then
      ⟨s, none, 0⟩
    else
      ⟨s, some s.m_DummyInput, K.sizeof_PlayerInput⟩
  else
    if Int.tmod s.m_DummyFire 25 ≠ 0 then
      ⟨{ s with m_DummyFire := wrapInt (s.m_DummyFire + 1) }, none, 0⟩
    else
      let s : CGameClient T := { s with m_DummyFire := wrapInt (s.m_DummyFire + 1) }
      let s : CGameClient T :=
        { s with m_HammerInput :=
            { s.m_HammerInput with m_Fire := Int.lor (wrapInt (s.m_HammerInput.m_Fire + 1)) 1 } }
      let s : CGameClient T :=
        { s with m_HammerInput := { s.m_HammerInput with m_WantedWeapon := K.WEAPON_HAMMER + 1 } }
      let s : CGameClient T :=
        if s.g_Config.m_ClDummyRestoreWeapon = 0 then
          { s with m_DummyInput := { s.m_DummyInput with m_WantedWeapon := K.WEAPON_HAMMER + 1 } }
        else s
      let MainPos := s.m_LocalCharacterPos
      let DummyPos :=
        (arrayAt s.m_aClients (s.m_aLocalIds.get (!s.g_Config.m_ClDummy))
          K.oob_ClientData).m_Predicted.m_Pos
      let Dir : vec2 :=
        ⟨K.toFloat (MainPos.x - DummyPos.x), K.toFloat (MainPos.y - DummyPos.y)⟩
      let s : CGameClient T :=
        { s with m_HammerInput := { s.m_HammerInput with m_TargetX := truncToInt Dir.x } }
      let s : CGameClient T :=
        { s with m_HammerInput := { s.m_HammerInput with m_TargetY := truncToInt Dir.y } }
      ⟨s, some s.m_HammerInput, K.sizeof_PlayerInput⟩

/-! ## Lifecycle reset -/

/-- `CGameClient::OnReset` (lines 588-691), statement by statement. -/
def OnReset {T : ExtTypes} (K : Externals T) (s : CGameClient T) : CGameClient T :=
  let s : CGameClient T := { s with m_Snap := K.InvalidateSnapshot s.m_Snap }
  let s : CGameClient T := { s with m_EditorMovementDelay := 5 }
  let s : CGameClient T := { s with m_PredictedTick := -1 }
  let s : CGameClient T :=
    { s with m_aLastNewPredictedTick := s.m_aLastNewPredictedTick.fill (-1) }
  let s : CGameClient T := { s with m_LastRoundStartTick := -1 }
  let s : CGameClient T := { s with m_LastRaceTick := -1 }
  let s : CGameClient T := { s with m_LastFlagCarrierRed := -4 }
  let s : CGameClient T := { s with m_LastFlagCarrierBlue := -4 }
  let s : CGameClient T := { s with m_aCheckInfo := s.m_aCheckInfo.fill (-1) }
  let s : CGameClient T := { s with m_aLastPos := fill s.m_aLastPos ⟨0, 0⟩ }
  let s : CGameClient T := { s with m_aLastActive := fill s.m_aLastActive false }
  let s : CGameClient T := { s with m_GameOver := false }
  let s : CGameClient T := { s with m_GamePaused := false }
  let s : CGameClient T := { s with m_PrevLocalId := -1 }
  let s : CGameClient T := { s with m_SuppressEvents := false }
  let s : CGameClient T := { s with m_NewTick := false }
  let s : CGameClient T := { s with m_NewPredictedTick := false }
  let s : CGameClient T :=
    { s with m_aFlagDropTick := Function.update s.m_aFlagDropTick K.TEAM_RED 0 }
  let s : CGameClient T :=
    { s with m_aFlagDropTick := Function.update s.m_aFlagDropTick K.TEAM_BLUE 0 }
  let s : CGameClient T := { s with m_ServerMode := K.SERVERMODE_PURE }
  let s : CGameClient T := { s with m_GameInfo := K.zero_GameInfo }
  let s : CGameClient T := { s with m_DemoSpecId := K.SPEC_FOLLOW }
  let s : CGameClient T := { s with m_LocalCharacterPos := ⟨0, 0⟩ }
  let s : CGameClient T :=
    { s with m_PredictedPrevChar := K.CharacterCore_Reset s.m_PredictedPrevChar }
  let s : CGameClient T := { s with m_PredictedChar := K.CharacterCore_Reset s.m_PredictedChar }
  let s : CGameClient T := { s with m_aLocalTuneZone := fill s.m_aLocalTuneZone (-1) }
  let s : CGameClient T := { s with m_aReceivedTuning := fill s.m_aReceivedTuning false }
  let s : CGameClient T :=
    { s with m_aExpectingTuningForZone := fill s.m_aExpectingTuningForZone (-1) }
  let s : CGameClient T := { s with m_aExpectingTuningSince := fill s.m_aExpectingTuningSince 0 }
  let s : CGameClient T := { s with m_aTuning := fill s.m_aTuning K.default_Tuning }
  let s : CGameClient T := { s with m_aClients := s.m_aClients.map K.ClientData_Reset }
  let s : CGameClient T := { s with m_aStats := s.m_aStats.map K.ClientStats_Reset }
  let s : CGameClient T := { s with m_NextChangeInfo := 0 }
  let s : CGameClient T := { s with m_aLocalIds := s.m_aLocalIds.fill (-1) }
  let s : CGameClient T := { s with m_DummyInput := CNetObj_PlayerInput.zero }
  let s : CGameClient T := { s with m_HammerInput := CNetObj_PlayerInput.zero }
  let s : CGameClient T := { s with m_DummyFire := 0 }
  let s : CGameClient T := { s with m_ReceivedDDNetPlayer := false }
  let s : CGameClient T := { s with m_Teams := K.Teams_Reset s.m_Teams }
  let s : CGameClient T := { s with m_GameWorld := K.GameWorld_Clear s.m_GameWorld }
  let s : CGameClient T := { s with m_GameWorld := { s.m_GameWorld with m_InfiniteAmmo := true } }
  let s : CGameClient T :=
    { s with m_PredictedWorld := K.CopyWorld s.m_PredictedWorld s.m_GameWorld }
  let s : CGameClient T :=
    { s with m_PrevPredictedWorld := K.CopyWorld s.m_PrevPredictedWorld s.m_PredictedWorld }
  let s : CGameClient T := { s with m_vSnapEntities := [] }
  let s : CGameClient T := { s with m_aDDRaceMsgSent := fill s.m_aDDRaceMsgSent false }
  let s : CGameClient T := { s with m_aShowOthers := fill s.m_aShowOthers K.SHOW_OTHERS_NOT_SET }
  let s : CGameClient T := { s with m_aLastUpdateTick := fill s.m_aLastUpdateTick 0 }
  let s : CGameClient T := { s with m_PredictedDummyId := -1 }
  let s : CGameClient T := { s with m_IsDummySwapping := 0 }
  let s : CGameClient T := { s with m_CharOrder := K.CharOrder_Reset s.m_CharOrder }
  let s : CGameClient T := { s with m_aSwitchStateTeam := fill s.m_aSwitchStateTeam (-1) }
  let s : CGameClient T := { s with m_LastShowDistanceZoom := 0 }
  let s : CGameClient T := { s with m_LastZoom := 0 }
  let s : CGameClient T := { s with m_LastScreenAspect := 0 }
  let s : CGameClient T := { s with m_LastDeadzone := 0 }
  let s : CGameClient T := { s with m_LastFollowFactor := 0 }
  let s : CGameClient T := { s with m_LastDummyConnected := false }
  let s : CGameClient T := { s with m_MultiViewPersonalZoom := 0 }
  let s : CGameClient T := { s with m_MultiViewActivated := false }
  let s : CGameClient T := { s with m_MultiView_m_IsInit := false }
  let s : CGameClient T := { s with m_CursorInfo_m_CursorOwnerId := -1 }
  let s : CGameClient T := { s with m_CursorInfo_m_NumSamples := 0 }
  let comps := K.Components_OnReset (s.m_Controls, s.m_vpAll)
  let s : CGameClient T := { s with m_Controls := comps.1, m_vpAll := comps.2 }
  let s : CGameClient T := { s with Editor := K.Editor_ResetMentions s.Editor }
  let s : CGameClient T := { s with Editor := K.Editor_ResetIngameMoved s.Editor }
  let s : CGameClient T := { s with Collision := K.Collision_Unload s.Collision }
  { s with Layers := K.Layers_Unload s.Layers }

/-! ## Position reconciler -/

/-- The test `m_Snap.m_pGameInfoObj && m_Snap.m_pGameInfoObj->m_GameStateFlags &
GAMESTATEFLAG_GAMEOVER` of lines 700 and 709. -/
def GameOverFlag {T : ExtTypes} (K : Externals T) (s : CGameClient T) : Bool :=
  match s.m_Snap.m_pGameInfoObj with
  | some g => decide (Int.land g.m_GameStateFlags K.GAMESTATEFLAG_GAMEOVER ≠ 0)
  | none => false

/-- The first part of `CGameClient::UpdatePositions`, "local character position"
(lines 695-723). -/
def UpdateLocalCharacterPos {T : ExtTypes} (K : Externals T) (s : CGameClient T) :
    CGameClient T :=
  if s.g_Config.m_ClPredict ≠ 0 ∧ s.Client.State ≠ K.STATE_DEMOPLAYBACK then
    if !K.AntiPingPlayers s then
      if s.m_Snap.m_pLocalCharacter.isNone || GameOverFlag K s then
        s
      else
        let Pos := mix s.m_PredictedPrevChar.m_Pos s.m_PredictedChar.m_Pos
          (s.Client.PredIntraGameTick.get s.g_Config.m_ClDummy)
        { s with m_LocalCharacterPos := Pos }
    else
      if !GameOverFlag K s then
        if s.m_Snap.m_pLocalCharacter.isSome then
          let Pos := mix s.m_PredictedPrevChar.m_Pos s.m_PredictedChar.m_Pos
            (s.Client.PredIntraGameTick.get s.g_Config.m_ClDummy)
          { s with m_LocalCharacterPos := Pos }
        else s
      else s
  else
    match s.m_Snap.m_pLocalCharacter, s.m_Snap.m_pLocalPrevCharacter with
    | some Cur, some Prev =>
      let Pos := mix Prev.pos Cur.pos (s.Client.IntraGameTick.get s.g_Config.m_ClDummy)
      { s with m_LocalCharacterPos := Pos }
    | _, _ => s

/-- Store a spectator position and set `m_UsePosition` (lines 734-738 and 743-747). -/
def setSpecPosition {T : ExtTypes} (s : CGameClient T) (p : vec2) : CGameClient T :=
  let SpecInfo : CSpecInfo := { s.m_Snap.m_SpecInfo with m_Position := p }
  let SpecInfo : CSpecInfo := { SpecInfo with m_UsePosition := true }
  { s with m_Snap := { s.m_Snap with m_SpecInfo := SpecInfo } }

/-- The second part of `CGameClient::UpdatePositions`, "spectator position"
(lines 726-749). -/
def UpdateSpectatorPos {T : ExtTypes} (K : Externals T) (s : CGameClient T) : CGameClient T :=
  if s.m_Snap.m_SpecInfo.m_Active then
    if s.m_MultiViewActivated then
      K.HandleMultiView s
    else if s.Client.State = K.STATE_DEMOPLAYBACK ∧ s.m_DemoSpecId ≠ K.SPEC_FOLLOW
        ∧ s.m_Snap.m_SpecInfo.m_SpectatorId ≠ K.SPEC_FREEVIEW then
      let c := arrayAt s.m_Snap.m_aCharacters s.m_Snap.m_SpecInfo.m_SpectatorId
        K.oob_SnapCharacter
      setSpecPosition s
        (mix c.m_Prev.pos c.m_Cur.pos (s.Client.IntraGameTick.get s.g_Config.m_ClDummy))
    else
      match s.m_Snap.m_pSpectatorInfo with
      | some Cur =>
        if (s.Client.State = K.STATE_DEMOPLAYBACK ∧ s.m_DemoSpecId = K.SPEC_FOLLOW)
            ∨ (s.Client.State ≠ K.STATE_DEMOPLAYBACK
                ∧ K.LiveSpectateCond s.m_Snap.m_SpecInfo = true) then
          match s.m_Snap.m_pPrevSpectatorInfo with
          | some Prev =>
            if Prev.m_SpectatorId = Cur.m_SpectatorId then
              setSpecPosition s
                (mix Prev.pos Cur.pos (s.Client.IntraGameTick.get s.g_Config.m_ClDummy))
            else
              setSpecPosition s Cur.pos
          | none => setSpecPosition s Cur.pos
        else s
      | none => s
  else s

/-- `CGameClient::UpdatePositions` (lines 693-755). -/
def UpdatePositions {T : ExtTypes} (K : Externals T) (s : CGameClient T) : CGameClient T :=
  let s := UpdateLocalCharacterPos K s
  let s := UpdateSpectatorPos K s
  let s := if !s.m_MultiViewActivated && s.m_MultiView_m_IsInit then K.ResetMultiView s else s
  K.UpdateRenderedCharacters s

/-! ## Render frame and identity watchdog -/

/-- Modelled from the spec: `minimum` of `base/math.h` is not part of `gameclient.cpp`; the
spec has the decrement "floored at the countdown's own remaining value", so it is the
smaller of its two arguments. -/
def minimum (a b : ℤ) : ℤ := min a b

/-- The team id that `OnRender` computes for `InitMultiView` (lines 762-767). -/
def MultiViewTeamId {T : ExtTypes} (K : Externals T) (s : CGameClient T) : ℤ :=
  let TeamId : ℤ := 0
  let TeamId : ℤ :=
    if s.m_Snap.m_SpecInfo.m_SpectatorId ≥ 0 then
      K.Teams_Team s.m_Teams s.m_Snap.m_SpecInfo.m_SpectatorId
    else TeamId
  if TeamId > K.MAX_CLIENTS ∨ TeamId < 0 then 0 else TeamId

/-- The multi-view check at the start of `OnRender` (lines 759-774). -/
def CheckMultiView {T : ExtTypes} (K : Externals T) (s : CGameClient T) : CGameClient T :=
  if !s.m_MultiView_m_IsInit && s.m_MultiViewActivated then
    let r := K.InitMultiView s (MultiViewTeamId K s)
    if !r.1 then K.ResetMultiView r.2 else r.2
  else s

/-- The comparison of the acknowledged identity of the primary player with the configuration
(lines 831-838): true when some field differs. -/
def PlayerInfoDiffers {T : ExtTypes} (K : Externals T) (s : CGameClient T) : Bool :=
  let Local := arrayAt s.m_aClients s.m_aLocalIds.a0 K.oob_ClientData
  decide (K.str_comp Local.m_aName s.Client.PlayerName ≠ 0) ||
  decide (K.str_comp Local.m_aClan s.g_Config.m_PlayerClan ≠ 0) ||
  decide (Local.m_Country ≠ s.g_Config.m_PlayerCountry) ||
  decide (K.str_comp Local.m_aSkinName s.g_Config.m_ClPlayerSkin ≠ 0) ||
  decide (Local.m_UseCustomColor ≠ s.g_Config.m_ClPlayerUseCustomColor) ||
  decide (Local.m_ColorBody ≠ castInt s.g_Config.m_ClPlayerColorBody) ||
  decide (Local.m_ColorFeet ≠ castInt s.g_Config.m_ClPlayerColorFeet)

/-- The comparison of the acknowledged identity of the dummy with the configuration
(lines 863-870): true when some field differs. -/
def DummyInfoDiffers {T : ExtTypes} (K : Externals T) (s : CGameClient T) : Bool :=
  let Local := arrayAt s.m_aClients s.m_aLocalIds.a1 K.oob_ClientData
  decide (K.str_comp Local.m_aName s.Client.DummyName ≠ 0) ||
  decide (K.str_comp Local.m_aClan s.g_Config.m_ClDummyClan ≠ 0) ||
  decide (Local.m_Country ≠ s.g_Config.m_ClDummyCountry) ||
  decide (K.str_comp Local.m_aSkinName s.g_Config.m_ClDummySkin ≠ 0) ||
  decide (Local.m_UseCustomColor ≠ s.g_Config.m_ClDummyUseCustomColor) ||
  decide (Local.m_ColorBody ≠ castInt s.g_Config.m_ClDummyColorBody) ||
  decide (Local.m_ColorFeet ≠ castInt s.g_Config.m_ClDummyColorFeet)

/-- A call of one of the announcement senders: the state that the sender leaves, with the
call appended to the record of announcements. -/
def announce {T : ExtTypes} (s : CGameClient T) (a : Announcement) (sent : CGameClient T) :
    CGameClient T :=
  { sent with Sent := s.Sent ++ [a] }

/-- The identity watchdog on the primary slot (lines 820-848). -/
def CheckInfoPlayer {T : ExtTypes} (K : Externals T) (s : CGameClient T) : CGameClient T :=
  let s : CGameClient T :=
    if s.m_aCheckInfo.a0 = 0 then
      if s.Client.IsSixup then
        if !K.GotWantedSkin7 s false then
          announce s (.SendSkinChange7 false) (K.SendSkinChange7 s false)
        else { s with m_aCheckInfo := { s.m_aCheckInfo with a0 := -1 } }
      else
        if PlayerInfoDiffers K s then announce s (.SendInfo false) (K.SendInfo s false)
        else { s with m_aCheckInfo := { s.m_aCheckInfo with a0 := -1 } }
    else s
  if s.m_aCheckInfo.a0 > 0 then
    let d := minimum (s.Client.GameTick.a0 - s.Client.PrevGameTick.a0) s.m_aCheckInfo.a0
    { s with m_aCheckInfo := { s.m_aCheckInfo with a0 := s.m_aCheckInfo.a0 - d } }
  else s

/-- The identity watchdog on the dummy slot (lines 852-880). -/
def CheckInfoDummy {T : ExtTypes} (K : Externals T) (s : CGameClient T) : CGameClient T :=
  let s : CGameClient T :=
    if s.m_aCheckInfo.a1 = 0 then
      if s.Client.IsSixup then
        if !K.GotWantedSkin7 s true then
          announce s (.SendSkinChange7 true) (K.SendSkinChange7 s true)
        else { s with m_aCheckInfo := { s.m_aCheckInfo with a1 := -1 } }
      else
        if DummyInfoDiffers K s then announce s (.SendDummyInfo false) (K.SendDummyInfo s false)
        else { s with m_aCheckInfo := { s.m_aCheckInfo with a1 := -1 } }
    else s
  if s.m_aCheckInfo.a1 > 0 then
    let d := minimum (s.Client.GameTick.a1 - s.Client.PrevGameTick.a1) s.m_aCheckInfo.a1
    { s with m_aCheckInfo := { s.m_aCheckInfo with a1 := s.m_aCheckInfo.a1 - d } }
  else s

/-- The end of `CGameClient::OnRender` (lines 808-882): the tick flags are cleared and the
identity of both slots is checked. -/
def ResendInfoCheck {T : ExtTypes} (K : Externals T) (s : CGameClient T) : CGameClient T :=
  let WasNewTick := s.m_NewTick
  let s : CGameClient T := { s with m_NewTick := false }
  let s : CGameClient T := { s with m_NewPredictedTick := false }
  let s : CGameClient T :=
    if s.g_Config.m_ClDummy && !s.Client.DummyConnected then
      { s with g_Config := { s.g_Config with m_ClDummy := false } }
    else s
  if s.Client.State = K.STATE_ONLINE ∧ K.Menus_IsActive s.m_vpAll = false
      ∧ WasNewTick = true then
    let s := CheckInfoPlayer K s
    if s.Client.DummyConnected then CheckInfoDummy K s else s
  else s

/-- `CGameClient::OnRender` (lines 757-883). -/
def OnRender {T : ExtTypes} (K : Externals T) (s : CGameClient T) : CGameClient T :=
  let s := CheckMultiView K s
  let s := UpdatePositions K s
  let s := K.RenderSystems s
  ResendInfoCheck K s

/-! ## Runs of the input multiplexer -/

/-- Consecutive calls `OnSnapInput(pData, true, Force)` for the dummy slot, one for each force
flag of the list: the frame written and the size returned by each call, in order. -/
def DummySnaps {T : ExtTypes} (K : Externals T) :
    CGameClient T → List Bool → List (Option CNetObj_PlayerInput × ℤ)
  | _, [] => []
  | s, Force :: rest =>
    let r := OnSnapInput K s true Force
    (r.pData, r.size) :: DummySnaps K r.state rest

/-- The sizes returned by consecutive calls of `OnSnapInput` for the dummy slot. -/
def DummySizes {T : ExtTypes} (K : Externals T) (s : CGameClient T) (forces : List Bool) :
    List ℤ :=
  (DummySnaps K s forces).map Prod.snd

/-- The fire values of the frames that consecutive calls of `OnSnapInput` for the dummy slot
emit, in order; calls that return size 0 contribute nothing. -/
def DummyFires {T : ExtTypes} (K : Externals T) (s : CGameClient T) (forces : List Bool) :
    List ℤ :=
  (DummySnaps K s forces).filterMap
    (fun r => if r.2 ≠ 0 then r.1.map CNetObj_PlayerInput.m_Fire else none)

/-- The client state after `n` consecutive calls of `UpdatePositions`. -/
def UpdatePositionsN {T : ExtTypes} (K : Externals T) : ℕ → CGameClient T → CGameClient T
  | 0, s => s
  | n + 1, s => UpdatePositionsN K n (UpdatePositions K s)

/-! ## A concrete client

The opaque classes are one-point types, the constants have the values of the DDNet headers,
and every member of the client is zero. -/

/-- Every opaque class is the one-point type. -/
def UnitTypes : ExtTypes :=
  ⟨Unit, Unit, Unit, Unit, Unit, Unit, Unit, Unit, Unit, Unit, Unit, Unit, Unit, Unit, Unit,
    Unit⟩

/-- A character core at the origin. -/
def zeroCore : CCharacterCore UnitTypes := ⟨⟨0, 0⟩, ()⟩

/-- A client-data record with empty identity. -/
def zeroClientData : CClientData UnitTypes := ⟨"", "", 0, "", 0, 0, 0, zeroCore, ()⟩

/-- A snapshot state without any object. -/
def zeroSnap : CSnapState UnitTypes :=
  ⟨none, none, none, none, none, ⟨false, 0, false, ⟨0, 0⟩⟩, [], ()⟩

/-- A configuration with every variable zero. -/
def zeroConfig : CConfig := ⟨false, 0, 0, 0, 0, "", 0, "", 0, 0, 0, "", 0, "", 0, 0, 0⟩

/-- An engine client that reports zero for everything. -/
def zeroEngine : IClient := ⟨0, ⟨0, 0⟩, ⟨0, 0⟩, ⟨0, 0⟩, ⟨0, 0⟩, false, false, "", ""⟩

/-- A client with every member zero. -/
def zeroClient : CGameClient UnitTypes where
  g_Config := zeroConfig
  Client := zeroEngine
  m_Snap := zeroSnap
  m_EditorMovementDelay := 0
  m_PredictedTick := 0
  m_aLastNewPredictedTick := ⟨0, 0⟩
  m_LastRoundStartTick := 0
  m_LastRaceTick := 0
  m_LastFlagCarrierRed := 0
  m_LastFlagCarrierBlue := 0
  m_aCheckInfo := ⟨0, 0⟩
  m_aLastPos := []
  m_aLastActive := []
  m_GameOver := false
  m_GamePaused := false
  m_PrevLocalId := 0
  m_SuppressEvents := false
  m_NewTick := false
  m_NewPredictedTick := false
  m_aFlagDropTick := fun _ => 0
  m_ServerMode := 0
  m_GameInfo := ()
  m_DemoSpecId := 0
  m_LocalCharacterPos := ⟨0, 0⟩
  m_PredictedPrevChar := zeroCore
  m_PredictedChar := zeroCore
  m_aLocalTuneZone := []
  m_aReceivedTuning := []
  m_aExpectingTuningForZone := []
  m_aExpectingTuningSince := []
  m_aTuning := []
  m_aClients := []
  m_aStats := []
  m_NextChangeInfo := 0
  m_aLocalIds := ⟨0, 0⟩
  m_DummyInput := CNetObj_PlayerInput.zero
  m_HammerInput := CNetObj_PlayerInput.zero
  m_DummyFire := 0
  m_ReceivedDDNetPlayer := false
  m_Teams := ()
  m_GameWorld := ⟨false, ()⟩
  m_PredictedWorld := ⟨false, ()⟩
  m_PrevPredictedWorld := ⟨false, ()⟩
  m_vSnapEntities := []
  m_aDDRaceMsgSent := []
  m_aShowOthers := []
  m_aLastUpdateTick := []
  m_PredictedDummyId := 0
  m_IsDummySwapping := 0
  m_CharOrder := ()
  m_aSwitchStateTeam := []
  m_LastShowDistanceZoom := 0
  m_LastZoom := 0
  m_LastScreenAspect := 0
  m_LastDeadzone := 0
  m_LastFollowFactor := 0
  m_LastDummyConnected := false
  m_MultiViewPersonalZoom := 0
  m_MultiViewActivated := false
  m_MultiView_m_IsInit := false
  m_MultiView_m_Rest := ()
  m_CursorInfo_m_CursorOwnerId := 0
  m_CursorInfo_m_NumSamples := 0
  m_Controls := ⟨⟨CNetObj_PlayerInput.zero, CNetObj_PlayerInput.zero⟩, ()⟩
  m_vpAll := ()
  Editor := ()
  Collision := ()
  Layers := ()
  Sent := []

/-- Collaborators with the constants of the DDNet headers: the reset methods put back zero
values, a world copy replaces the receiver, and every other collaborator leaves the state as
it is. -/
def plainExternals : Externals UnitTypes where
  SPEC_FOLLOW := -2
  SPEC_FREEVIEW := -1
  WEAPON_HAMMER := 0
  GAMESTATEFLAG_GAMEOVER := 1
  TEAM_RED := 0
  TEAM_BLUE := 1
  SERVERMODE_PURE := 0
  SHOW_OTHERS_NOT_SET := -1
  STATE_ONLINE := 3
  STATE_DEMOPLAYBACK := 4
  MAX_CLIENTS := 128
  sizeof_PlayerInput := 40
  sizeof_PlayerInput_pos := by decide
  zero_GameInfo := ()
  default_Tuning := ()
  oob_ClientData := zeroClientData
  oob_SnapCharacter := ⟨⟨0, 0⟩, ⟨0, 0⟩⟩
  ResetInput := fun c _ => c
  SnapInput := fun s => ⟨s, none, 0⟩
  InvalidateSnapshot := fun _ => zeroSnap
  CharacterCore_Reset := fun _ => zeroCore
  ClientData_Reset := fun _ => zeroClientData
  ClientStats_Reset := fun x => x
  Teams_Reset := fun x => x
  GameWorld_Clear := fun x => x
  CopyWorld := fun _ w => w
  CharOrder_Reset := fun x => x
  Components_OnReset := fun x => x
  Editor_ResetMentions := fun x => x
  Editor_ResetIngameMoved := fun x => x
  Collision_Unload := fun x => x
  Layers_Unload := fun x => x
  AntiPingPlayers := fun _ => false
  HandleMultiView := fun s => s
  ResetMultiView := fun s => s
  UpdateRenderedCharacters := fun s => s
  LiveSpectateCond := fun i => decide (i.m_SpectatorId ≠ -1)
  Menus_IsActive := fun _ => false
  GotWantedSkin7 := fun _ _ => true
  SendSkinChange7 := fun s _ => s
  SendInfo := fun s _ => s
  SendDummyInfo := fun s _ => s
  str_comp := fun a b => if a = b then 0 else 1
  Teams_Team := fun _ _ => 0
  InitMultiView := fun s _ => (true, s)
  RenderSystems := fun s => s
  toFloat := fun x => x

/-- The zero client with auto-hammer mode switched on. -/
def hammerClient : CGameClient UnitTypes :=
  { zeroClient with g_Config := { zeroConfig with m_ClDummyHammer := 1 } }

/-- A client just before a controller swap: the dummy input holds the fire latch 5, the
controller inputs of the two slots hold the fire values 3 and 7, and slot 1 is the slot
that becomes active (`g_Config.m_ClDummy` is 1); nothing is reset on a switch. -/
def swapClient : CGameClient UnitTypes :=
  { zeroClient with
    g_Config := { zeroConfig with m_ClDummy := true }
    m_DummyInput := { CNetObj_PlayerInput.zero with m_Fire := 5 }
    m_Controls :=
      ⟨⟨{ CNetObj_PlayerInput.zero with m_Fire := 3 },
        { CNetObj_PlayerInput.zero with m_Fire := 7 }⟩, ()⟩ }

/-- A client with prediction switched off whose snapshot says that the game is over: the local
character moved from (0, 0) to (100, 0) between the two snapshots, the rendered position is
(0, 0) and the intra-tick fraction is 1/2. -/
def predictOffClient : CGameClient UnitTypes :=
  { zeroClient with
    Client := { zeroEngine with State := 3, IntraGameTick := ⟨1 / 2, 1 / 2⟩ }
    m_Snap :=
      { zeroSnap with
        m_pLocalCharacter := some ⟨100, 0⟩
        m_pLocalPrevCharacter := some ⟨0, 0⟩
        m_pGameInfoObj := some ⟨1⟩ } }

/-- A client with prediction switched on, online, whose snapshot says that the game is over;
the predicted character moved from (0, 0) to (64, 32) and the rendered position is (7, 9). -/
def gameOverClient : CGameClient UnitTypes :=
  { zeroClient with
    g_Config := { zeroConfig with m_ClPredict := 1 }
    Client := { zeroEngine with State := 3, PredIntraGameTick := ⟨1 / 2, 1 / 2⟩ }
    m_Snap := { zeroSnap with m_pLocalCharacter := some ⟨64, 32⟩, m_pGameInfoObj := some ⟨1⟩ }
    m_LocalCharacterPos := ⟨7, 9⟩
    m_PredictedChar := ⟨⟨64, 32⟩, ()⟩ }

/-- The spectator part of the snapshot of a client that watches a demo in free view: the
recorded spectator-info records name the targets 2 and then 3, the latter at (100, 200). -/
def freeViewSnap : CSnapState UnitTypes :=
  { zeroSnap with
    m_SpecInfo := ⟨true, -1, false, ⟨0, 0⟩⟩
    m_pSpectatorInfo := some ⟨3, 100, 200⟩
    m_pPrevSpectatorInfo := some ⟨2, 0, 0⟩ }

/-- A client that plays back a demo in free view (`m_DemoSpecId` and the spectator id are
`SPEC_FREEVIEW`), multi-view off. -/
def demoFreeViewClient : CGameClient UnitTypes :=
  { zeroClient with
    Client := { zeroEngine with State := 4, IntraGameTick := ⟨1 / 2, 1 / 2⟩ }
    m_Snap := freeViewSnap
    m_DemoSpecId := -1 }

/-- An online client that follows the spectated target 3, which replaced target 2 in the
current snapshot. -/
def followClient : CGameClient UnitTypes :=
  { zeroClient with
    Client := { zeroEngine with State := 3, IntraGameTick := ⟨1 / 2, 1 / 2⟩ }
    m_Snap := { freeViewSnap with m_SpecInfo := ⟨true, 3, false, ⟨0, 0⟩⟩ } }

/-- The case in which the local position is frozen: prediction is on, the client is not
playing back a demo, anti-ping is off and the game-over flag of the snapshot is set. -/
def FreezeCase {T : ExtTypes} (K : Externals T) (t : CGameClient T) : Prop :=
  t.g_Config.m_ClPredict ≠ 0 ∧ t.Client.State ≠ K.STATE_DEMOPLAYBACK
    ∧ K.AntiPingPlayers t = false ∧ GameOverFlag K t = true

/-- A collaborator that, called while the game-over flag is set, keeps the flag and the
local position. -/
def KeepsFrozenPos {T : ExtTypes} (K : Externals T) (h : CGameClient T → CGameClient T) :
    Prop :=
  ∀ t, GameOverFlag K t = true →
    GameOverFlag K (h t) = true ∧ (h t).m_LocalCharacterPos = t.m_LocalCharacterPos

/-- A collaborator that leaves `m_Snap.m_SpecInfo` as it is. -/
def KeepsSpecInfo {T : ExtTypes} (h : CGameClient T → CGameClient T) : Prop :=
  ∀ t, (h t).m_Snap.m_SpecInfo = t.m_Snap.m_SpecInfo

/-- A client whose identity countdowns stand at 50 while 3 ticks elapsed on either
connection since the previous frame. -/
def countdownClient : CGameClient UnitTypes :=
  { zeroClient with
    Client := { zeroEngine with State := 3, GameTick := ⟨103, 103⟩, PrevGameTick := ⟨100, 100⟩ }
    m_aCheckInfo := ⟨50, 50⟩ }

/-- The game world after `m_GameWorld.Clear(); m_GameWorld.m_WorldConfig.m_InfiniteAmmo =
true;` (lines 651-652). -/
def clearedWorld {T : ExtTypes} (K : Externals T) (w : CGameWorld T) : CGameWorld T :=
  { K.GameWorld_Clear w with m_InfiniteAmmo := true }

/-- A client in auto-hammer mode whose rendered local position is (100, 50) while the
predicted position of the dummy, client 1, is (30, 20). -/
def aimClient : CGameClient UnitTypes :=
  { hammerClient with
    m_LocalCharacterPos := ⟨100, 50⟩
    m_aLocalIds := ⟨0, 1⟩
    m_aClients := [zeroClientData, { zeroClientData with m_Predicted := ⟨⟨30, 20⟩, ()⟩ }] }

/-- A client just before a controller swap with reset-on-switch set to 2: slot 1 becomes
active, and the controller input of slot 0, which becomes inactive, holds a pressed hook. -/
def hookedSwapClient : CGameClient UnitTypes :=
  { zeroClient with
    g_Config := { zeroConfig with m_ClDummy := true, m_ClDummyResetOnSwitch := 2 }
    m_Controls :=
      ⟨⟨{ CNetObj_PlayerInput.zero with m_Hook := 1 }, CNetObj_PlayerInput.zero⟩, ()⟩ }

/-- A client in manual-follow mode right after auto-hammer mode: the tick counter stands at 7,
the hammer fire value at 5 and the fire latch of the dummy input at 2. -/
def afterHammerClient : CGameClient UnitTypes :=
  { zeroClient with
    m_DummyFire := 7
    m_HammerInput := { CNetObj_PlayerInput.zero with m_Fire := 5 }
    m_DummyInput := { CNetObj_PlayerInput.zero with m_Fire := 2 } }

/-- A client that has multi-view activated but not yet initialised while spectating
client 3. -/
def multiViewClient : CGameClient UnitTypes :=
  { zeroClient with
    m_MultiViewActivated := true
    m_Snap := { zeroSnap with m_SpecInfo := ⟨true, 3, false, ⟨0, 0⟩⟩ } }

/-- The position `DummyPos` that the auto-hammer branch of `OnSnapInput` reads (line 542):
`m_aClients[m_aLocalIds[!g_Config.m_ClDummy]].m_Predicted.m_Pos`. -/
def DummyPredictedPos {T : ExtTypes} (K : Externals T) (s : CGameClient T) : vec2 :=
  (arrayAt s.m_aClients (s.m_aLocalIds.get (!s.g_Config.m_ClDummy))
    K.oob_ClientData).m_Predicted.m_Pos

/-- Every last-acknowledged identity field of the primary player (name, clan, country, skin
name, custom-colour flag, body colour, feet colour) equals the live configuration. -/
def PlayerInfoAcknowledged {T : ExtTypes} (K : Externals T) (s : CGameClient T) : Prop :=
  (arrayAt s.m_aClients s.m_aLocalIds.a0 K.oob_ClientData).m_aName = s.Client.PlayerName
    ∧ (arrayAt s.m_aClients s.m_aLocalIds.a0 K.oob_ClientData).m_aClan = s.g_Config.m_PlayerClan
    ∧ (arrayAt s.m_aClients s.m_aLocalIds.a0 K.oob_ClientData).m_Country
        = s.g_Config.m_PlayerCountry
    ∧ (arrayAt s.m_aClients s.m_aLocalIds.a0 K.oob_ClientData).m_aSkinName
        = s.g_Config.m_ClPlayerSkin
    ∧ (arrayAt s.m_aClients s.m_aLocalIds.a0 K.oob_ClientData).m_UseCustomColor
        = s.g_Config.m_ClPlayerUseCustomColor
    ∧ (arrayAt s.m_aClients s.m_aLocalIds.a0 K.oob_ClientData).m_ColorBody
        = castInt s.g_Config.m_ClPlayerColorBody
    ∧ (arrayAt s.m_aClients s.m_aLocalIds.a0 K.oob_ClientData).m_ColorFeet
        = castInt s.g_Config.m_ClPlayerColorFeet

/-- Every last-acknowledged identity field of the dummy equals the live configuration. -/
def DummyInfoAcknowledged {T : ExtTypes} (K : Externals T) (s : CGameClient T) : Prop :=
  (arrayAt s.m_aClients s.m_aLocalIds.a1 K.oob_ClientData).m_aName = s.Client.DummyName
    ∧ (arrayAt s.m_aClients s.m_aLocalIds.a1 K.oob_ClientData).m_aClan = s.g_Config.m_ClDummyClan
    ∧ (arrayAt s.m_aClients s.m_aLocalIds.a1 K.oob_ClientData).m_Country
        = s.g_Config.m_ClDummyCountry
    ∧ (arrayAt s.m_aClients s.m_aLocalIds.a1 K.oob_ClientData).m_aSkinName
        = s.g_Config.m_ClDummySkin
    ∧ (arrayAt s.m_aClients s.m_aLocalIds.a1 K.oob_ClientData).m_UseCustomColor
        = s.g_Config.m_ClDummyUseCustomColor
    ∧ (arrayAt s.m_aClients s.m_aLocalIds.a1 K.oob_ClientData).m_ColorBody
        = castInt s.g_Config.m_ClDummyColorBody
    ∧ (arrayAt s.m_aClients s.m_aLocalIds.a1 K.oob_ClientData).m_ColorFeet
        = castInt s.g_Config.m_ClDummyColorFeet

/-- The countdown that the decrement of lines 845-848 and 877-880 leaves, from the countdown
`c` before it and the number `d` of ticks elapsed. -/
def afterDecrement (c d : ℤ) : ℤ := if c > 0 then c - minimum d c else c

/-- Collaborators as `plainExternals`, except that the wanted 0.7 skin is not in place yet. -/
def skinPendingExternals : Externals UnitTypes :=
  { plainExternals with GotWantedSkin7 := fun _ _ => false }

/-- An online client on a 0.7 connection whose configured player name is not the
acknowledged one of client 0, the local client; the countdown of the primary slot is 0. -/
def sixupClient : CGameClient UnitTypes :=
  { zeroClient with
    Client := { zeroEngine with State := 3, IsSixup := true, PlayerName := "nameless tee" }
    m_aClients := [zeroClientData] }

/-- An online client on a 0.7 connection whose acknowledged identity equals the
configuration; the countdown of the primary slot is 0. -/
def sixupMatchClient : CGameClient UnitTypes :=
  { zeroClient with
    Client := { zeroEngine with State := 3, IsSixup := true }
    m_aClients := [zeroClientData] }

/-- An online client on a 0.6 connection whose configured player name is not the
acknowledged one; both countdowns are 0. -/
def renamedClient : CGameClient UnitTypes :=
  { zeroClient with
    Client := { zeroEngine with State := 3, PlayerName := "nameless tee" }
    m_aClients := [zeroClientData] }

/-- The second state agrees with the first in everything that the identity watchdog reads
before it acts: the connection state, whether the menu is active, the new-tick flag, the
two countdowns and the record of announcements. -/
def SameWatchdogView {T : ExtTypes} (K : Externals T) (t u : CGameClient T) : Prop :=
  u.Client.State = t.Client.State ∧ K.Menus_IsActive u.m_vpAll = K.Menus_IsActive t.m_vpAll
    ∧ u.m_NewTick = t.m_NewTick ∧ u.m_aCheckInfo = t.m_aCheckInfo ∧ u.Sent = t.Sent

/-- A collaborator that changes nothing of what the identity watchdog reads. -/
def KeepsWatchdogView {T : ExtTypes} (K : Externals T) (h : CGameClient T → CGameClient T) :
    Prop :=
  ∀ t, SameWatchdogView K t (h t)

/-- Prediction is disabled or the client plays back a demo: the first test of
`UpdatePositions` (line 696) fails. -/
def NoPrediction {T : ExtTypes} (K : Externals T) (t : CGameClient T) : Prop :=
  t.g_Config.m_ClPredict = 0 ∨ t.Client.State = K.STATE_DEMOPLAYBACK

/-- A collaborator that, called without prediction, stays without prediction and keeps the
local position. -/
def KeepsUnpredictedPos {T : ExtTypes} (K : Externals T)
    (h : CGameClient T → CGameClient T) : Prop :=
  ∀ t, NoPrediction K t →
    NoPrediction K (h t) ∧ (h t).m_LocalCharacterPos = t.m_LocalCharacterPos

/-- A collaborator that leaves `m_LocalCharacterPos` as it is. -/
def KeepsLocalPos {T : ExtTypes} (h : CGameClient T → CGameClient T) : Prop :=
  ∀ t, (h t).m_LocalCharacterPos = t.m_LocalCharacterPos

/-- The blend of the predicted previous and current character positions by the predicted
intra-tick fraction (lines 705 and 712). -/
def PredictedBlend {T : ExtTypes} (s : CGameClient T) : vec2 :=
  mix s.m_PredictedPrevChar.m_Pos s.m_PredictedChar.m_Pos
    (s.Client.PredIntraGameTick.get s.g_Config.m_ClDummy)

/-- An online client that predicts: the local character is in the snapshot, the game is not
over, the predicted character moved from (0, 0) to (64, 32). -/
def predictingClient : CGameClient UnitTypes :=
  { zeroClient with
    g_Config := { zeroConfig with m_ClPredict := 1 }
    Client := { zeroEngine with State := 3, PredIntraGameTick := ⟨1 / 2, 1 / 2⟩ }
    m_Snap := { zeroSnap with m_pLocalCharacter := some ⟨64, 32⟩ }
    m_PredictedChar := ⟨⟨64, 32⟩, ()⟩ }

/-- A client in manual-follow mode right after auto-hammer mode, with the hammer fire value
at the largest `int`. -/
def maxFireClient : CGameClient UnitTypes :=
  { zeroClient with
    m_DummyFire := 7
    m_HammerInput := { CNetObj_PlayerInput.zero with m_Fire := 2147483647 } }

/-- The client `hookedSwapClient` with reset-on-switch set to 1: the slot that becomes
inactive, slot 0, is the one that is reset. -/
def hookedSwapClient1 : CGameClient UnitTypes :=
  { hookedSwapClient with
    g_Config := { hookedSwapClient.g_Config with m_ClDummyResetOnSwitch := 1 } }

/-- The state in which `OnRender` reaches the identity check of lines 808-882: after the
multi-view check, `UpdatePositions` and the rendering of all components. -/
def BeforeInfoCheck {T : ExtTypes} (K : Externals T) (s : CGameClient T) : CGameClient T :=
  K.RenderSystems (UpdatePositions K (CheckMultiView K s))

/-- The connection state after the engine went online. -/
def wentOnline (c : IClient) : IClient := { c with State := 3 }

/-- Collaborators as `plainExternals`, except that the client comes online while the
components are rendered. -/
def connectingExternals : Externals UnitTypes :=
  { plainExternals with RenderSystems := fun s => { s with Client := wentOnline s.Client } }

/-- A client that is still loading (state 2) at the start of the frame, with a new tick
crossed, the countdown of the primary slot at 0 and a name to announce. -/
def connectingClient : CGameClient UnitTypes :=
  { renamedClient with
    Client := { renamedClient.Client with State := 2 }
    m_NewTick := true }

theorem tmod_25_eq_zero_iff (x : ℤ) : Int.tmod x 25 = 0 ↔ x % 25 = 0 := by
  rw [← Int.dvd_iff_tmod_eq_zero]
  omega

theorem lor_one_eq (x : ℤ) : Int.lor x 1 = 2 * (x / 2) + 1 := by
  have h1 : (1 : ℤ) = Int.bit true 0 := by simp [Int.bit_val]
  conv_lhs => rw [← Int.bit_decomp x, h1, Int.lor_bit]
  simp only [Bool.or_true, Int.bit_val, cond_true]
  have h0 : Int.lor (Int.div2 x) 0 = Int.div2 x := by
    show Int.lor (Int.div2 x) ((0 : ℕ) : ℤ) = _
    cases Int.div2 x with
    | ofNat n => simp [Int.lor]
    | negSucc n => simp [Int.lor, Nat.ldiff]
  rw [h0, Int.div2_val]

/-! ## One call of `OnSnapInput` in auto-hammer mode -/

section Hammer

variable {T : ExtTypes} (K : Externals T)

theorem hammer_size (s : CGameClient T) (Force : Bool) (h : s.g_Config.m_ClDummyHammer ≠ 0) :
    (OnSnapInput K s true Force).size
      = if s.m_DummyFire % 25 = 0 then K.sizeof_PlayerInput else 0 := by
  unfold OnSnapInput
  simp only [Bool.not_true, Bool.false_eq_true, if_false, h, ne_eq, tmod_25_eq_zero_iff]
  by_cases h25 : s.m_DummyFire % 25 = 0 <;> simp [h25]

theorem hammer_config (s : CGameClient T) (Force : Bool) (h : s.g_Config.m_ClDummyHammer ≠ 0) :
    (OnSnapInput K s true Force).state.g_Config = s.g_Config := by
  unfold OnSnapInput
  simp only [Bool.not_true, Bool.false_eq_true, if_false, h, ne_eq, tmod_25_eq_zero_iff]
  by_cases h25 : s.m_DummyFire % 25 = 0
  · simp only [h25, not_true_eq_false, if_false]
    split_ifs <;> rfl
  · simp [h25]

theorem DummySizes_length (s : CGameClient T) (forces : List Bool) :
    (DummySizes K s forces).length = forces.length := by
  induction forces generalizing s with
  | nil => rfl
  | cons f fs ih =>
    have := ih (OnSnapInput K s true f).state
    simp only [DummySizes, DummySnaps, List.map_cons, List.length_cons, List.length_map] at this ⊢
    omega

theorem wrapInt_of_range (x : ℤ) (hlo : -2147483648 ≤ x) (hhi : x ≤ 2147483647) :
    wrapInt x = x := by
  unfold wrapInt
  omega

theorem hammer_step (s : CGameClient T) (Force : Bool) (h : s.g_Config.m_ClDummyHammer ≠ 0) :
    ((OnSnapInput K s true Force).size = 0
        ∧ (OnSnapInput K s true Force).state.m_HammerInput = s.m_HammerInput)
      ∨ ((OnSnapInput K s true Force).size ≠ 0
        ∧ (OnSnapInput K s true Force).pData.map CNetObj_PlayerInput.m_Fire
            = some (Int.lor (wrapInt (s.m_HammerInput.m_Fire + 1)) 1)
        ∧ (OnSnapInput K s true Force).state.m_HammerInput.m_Fire
            = Int.lor (wrapInt (s.m_HammerInput.m_Fire + 1)) 1) := by
  have hpos := K.sizeof_PlayerInput_pos
  unfold OnSnapInput
  simp only [Bool.not_true, Bool.false_eq_true, if_false, h, ne_eq, tmod_25_eq_zero_iff]
  by_cases h25 : s.m_DummyFire % 25 = 0
  · right
    simp only [h25, not_true_eq_false, if_false]
    refine ⟨by omega, ?_, ?_⟩ <;> split_ifs <;> rfl
  · left
    simp [h25]

theorem DummyFires_cons (s : CGameClient T) (Force : Bool) (rest : List Bool)
    (h : s.g_Config.m_ClDummyHammer ≠ 0) :
    (DummyFires K s (Force :: rest) = DummyFires K (OnSnapInput K s true Force).state rest
        ∧ (OnSnapInput K s true Force).state.m_HammerInput = s.m_HammerInput)
      ∨ (DummyFires K s (Force :: rest) = Int.lor (wrapInt (s.m_HammerInput.m_Fire + 1)) 1
            :: DummyFires K (OnSnapInput K s true Force).state rest
        ∧ (OnSnapInput K s true Force).state.m_HammerInput.m_Fire
            = Int.lor (wrapInt (s.m_HammerInput.m_Fire + 1)) 1) := by
  rcases hammer_step K s Force h with ⟨h0, hk⟩ | ⟨h1, hf, hs⟩
  · left
    refine ⟨?_, hk⟩
    simp only [DummyFires, DummySnaps, List.filterMap_cons, h0, ne_eq, not_true_eq_false,
      if_false]
  · right
    refine ⟨?_, hs⟩
    simp only [DummyFires, DummySnaps, List.filterMap_cons, ne_eq, h1, not_false_eq_true,
      if_true, hf]

theorem DummyFires_head (forces : List Bool) :
    ∀ s : CGameClient T, s.g_Config.m_ClDummyHammer ≠ 0 →
      ∀ x ∈ (DummyFires K s forces).head?, x = Int.lor (wrapInt (s.m_HammerInput.m_Fire + 1)) 1 := by
  induction forces with
  | nil => intro s _ x hx; simp [DummyFires, DummySnaps] at hx
  | cons f fs ih =>
    intro s h x hx
    have h1 : (OnSnapInput K s true f).state.g_Config.m_ClDummyHammer ≠ 0 := by
      rw [hammer_config K s f h]; exact h
    rcases DummyFires_cons K s f fs h with ⟨he, hk⟩ | ⟨he, _⟩
    · rw [he] at hx
      rw [ih _ h1 x hx, hk]
    · rw [he] at hx
      simpa using hx.symm

theorem DummyFires_odd (forces : List Bool) :
    ∀ s : CGameClient T, s.g_Config.m_ClDummyHammer ≠ 0 →
      ∀ x ∈ DummyFires K s forces, x % 2 = 1 := by
  induction forces with
  | nil => intro s _ x hx; simp [DummyFires, DummySnaps] at hx
  | cons f fs ih =>
    intro s h x hx
    have h1 : (OnSnapInput K s true f).state.g_Config.m_ClDummyHammer ≠ 0 := by
      rw [hammer_config K s f h]; exact h
    rcases DummyFires_cons K s f fs h with ⟨he, _⟩ | ⟨he, _⟩
    · rw [he] at hx
      exact ih _ h1 x hx
    · rw [he, List.mem_cons] at hx
      rcases hx with hx | hx
      · rw [hx, lor_one_eq]; omega
      · exact ih _ h1 x hx

theorem DummyFires_chain (forces : List Bool) :
    ∀ s : CGameClient T, s.g_Config.m_ClDummyHammer ≠ 0 →
      List.Chain' (fun a b : ℤ => a % 2 = b % 2 ∧ (a ≠ 2147483647 → b = a + 2))
        (DummyFires K s forces) := by
  induction forces with
  | nil => intro s _; simp [DummyFires, DummySnaps]
  | cons f fs ih =>
    intro s h
    have h1 : (OnSnapInput K s true f).state.g_Config.m_ClDummyHammer ≠ 0 := by
      rw [hammer_config K s f h]; exact h
    rcases DummyFires_cons K s f fs h with ⟨he, _⟩ | ⟨he, hs⟩
    · rw [he]
      exact ih _ h1
    · rw [he, List.chain'_cons']
      refine ⟨?_, ih _ h1⟩
      intro y hy
      rw [DummyFires_head K fs _ h1 y hy, hs, lor_one_eq, lor_one_eq]
      unfold wrapInt
      constructor
      · omega
      · intro hmax
        omega

end Hammer

/-! ## The claims on the input multiplexer -/

/-- Counterexample to C3: from the zero client in auto-hammer mode, 26 calls emit two
frames, at the first and at the 26th call; they carry the fire values 1 and 3, which have the
same parity. -/
theorem autohammer_fire_same_parity :
    DummyFires plainExternals hammerClient (List.replicate 26 false) = [1, 3]
      ∧ (1 : ℤ) % 2 = (3 : ℤ) % 2 := by
  constructor
  · decide
  · decide

/-- C3, amended: in auto-hammer mode, from any state (so for any hammer fire value), every
frame that `OnSnapInput` emits for the dummy slot carries an odd fire value, so that
consecutive emitted frames have the same parity; and each emitted frame carries the fire
value of the previous emitted frame plus 2, unless that value is `INT_MAX`, after which the
32-bit counter wraps around. -/
theorem autohammer_fire_odd {T : ExtTypes} (K : Externals T) (s : CGameClient T)
    (forces : List Bool) (hmode : s.g_Config.m_ClDummyHammer ≠ 0) :
    (∀ x ∈ DummyFires K s forces, x % 2 = 1)
      ∧ List.Chain' (fun a b : ℤ => a % 2 = b % 2 ∧ (a ≠ 2147483647 → b = a + 2))
          (DummyFires K s forces) :=
  ⟨DummyFires_odd K forces s hmode, DummyFires_chain K forces s hmode⟩

/-- Witness of C3, amended: the zero client in auto-hammer mode, 100 calls. -/
theorem autohammer_fire_odd_witness :
    hammerClient.g_Config.m_ClDummyHammer ≠ 0
      ∧ (∀ x ∈ DummyFires plainExternals hammerClient (List.replicate 100 false), x % 2 = 1) :=
  ⟨by decide,
    (autohammer_fire_odd plainExternals hammerClient (List.replicate 100 false) (by decide)).1⟩

/-- Counterexample to C4: with the latch `L = 5` in the dummy input and the fire values 3
and 7 in the controller inputs of slots 0 and 1, after `OnDummySwap` (slot 1 active) the dummy
input sent for the inactive slot has fire 3, not 5, and the fire values of the two slots are
3 and 5: none is 0. -/
theorem swap_latch_counterexample :
    swapClient.m_DummyInput.m_Fire = 5
      ∧ (OnDummySwap plainExternals swapClient).m_DummyInput.m_Fire = 3
      ∧ (OnDummySwap plainExternals swapClient).m_Controls.m_aInputData.a0.m_Fire = 3
      ∧ (OnDummySwap plainExternals swapClient).m_Controls.m_aInputData.a1.m_Fire = 5 := by
  refine ⟨by decide, by decide, by decide, by decide⟩

/-- C4, amended: for every state and every fire-latch value `L` held by
`m_DummyInput.m_Fire` before `OnDummySwap`, after `OnDummySwap` the latch `L` is the fire
value of the controller input of the slot `g_Config.m_ClDummy`, the slot that is active
after the swap, and the dummy input sent for the inactive slot is a copy of the controller
input of that slot, `m_Controls.m_aInputData[!g_Config.m_ClDummy]`, so that it carries
that slot's own fire value; when nothing is reset on a switch, the controller input of the
inactive slot is the one it was before the call. The configuration is unchanged. -/
theorem swap_latch {T : ExtTypes} (K : Externals T) (s : CGameClient T) :
    (OnDummySwap K s).g_Config = s.g_Config
      ∧ ((OnDummySwap K s).m_Controls.m_aInputData.get s.g_Config.m_ClDummy).m_Fire
          = s.m_DummyInput.m_Fire
      ∧ (OnDummySwap K s).m_DummyInput
          = (OnDummySwap K s).m_Controls.m_aInputData.get (!s.g_Config.m_ClDummy)
      ∧ (s.g_Config.m_ClDummyResetOnSwitch = 0 →
          (OnDummySwap K s).m_DummyInput
            = s.m_Controls.m_aInputData.get (!s.g_Config.m_ClDummy))
      ∧ (s.g_Config.m_ClDummyResetOnSwitch = 0 →
          (OnDummySwap K s).m_Controls.m_aInputData.get (!s.g_Config.m_ClDummy)
            = s.m_Controls.m_aInputData.get (!s.g_Config.m_ClDummy)) := by
  unfold OnDummySwap
  by_cases hr : s.g_Config.m_ClDummyResetOnSwitch = 0
  · cases hd : s.g_Config.m_ClDummy <;>
      simp [hr, hd, PerDummy.get, PerDummy.set]
  · by_cases h2 : s.g_Config.m_ClDummyResetOnSwitch = 2 <;>
      cases hd : s.g_Config.m_ClDummy <;>
      simp [hr, h2, hd, PerDummy.get, PerDummy.set]

/-- Witness of C4, amended: the swap client, on which nothing is reset on a switch. -/
theorem swap_latch_witness :
    swapClient.g_Config.m_ClDummyResetOnSwitch = 0
      ∧ (OnDummySwap plainExternals swapClient).m_DummyInput
          = swapClient.m_Controls.m_aInputData.get (!swapClient.g_Config.m_ClDummy) :=
  ⟨by decide, (swap_latch plainExternals swapClient).2.2.2.1 (by decide)⟩

/-! ## The linear blend -/

theorem vec2_eq (a b : vec2) (hx : a.x = b.x) (hy : a.y = b.y) : a = b := by
  cases a
  cases b
  simp only [vec2.mk.injEq]
  exact ⟨hx, hy⟩

theorem mix_x (a b : vec2) (f : ℚ) : (mix a b f).x = a.x + (b.x - a.x) * f := rfl

theorem mix_y (a b : vec2) (f : ℚ) : (mix a b f).y = a.y + (b.y - a.y) * f := rfl

/-! ## The claims on the position reconciler -/

section Positions

variable {T : ExtTypes} (K : Externals T)

theorem UpdateLocalCharacterPos_snap (s : CGameClient T) :
    (UpdateLocalCharacterPos K s).m_Snap = s.m_Snap
      ∧ (UpdateLocalCharacterPos K s).m_MultiViewActivated = s.m_MultiViewActivated
      ∧ (UpdateLocalCharacterPos K s).m_DemoSpecId = s.m_DemoSpecId
      ∧ (UpdateLocalCharacterPos K s).Client = s.Client
      ∧ (UpdateLocalCharacterPos K s).g_Config = s.g_Config := by
  unfold UpdateLocalCharacterPos
  split_ifs <;> first | (refine ⟨rfl, rfl, rfl, rfl, rfl⟩) | (split <;> refine ⟨rfl, rfl, rfl, rfl, rfl⟩)

theorem GameOverFlag_congr (s t : CGameClient T) (h : t.m_Snap.m_pGameInfoObj = s.m_Snap.m_pGameInfoObj) :
    GameOverFlag K t = GameOverFlag K s := by
  unfold GameOverFlag
  rw [h]

theorem UpdateLocalCharacterPos_frozen (s : CGameClient T) (h : FreezeCase K s) :
    UpdateLocalCharacterPos K s = s := by
  obtain ⟨hp, hd, ha, hg⟩ := h
  unfold UpdateLocalCharacterPos
  simp [hp, hd, ha, hg]

theorem UpdateSpectatorPos_cases (s : CGameClient T) (P : CGameClient T → Prop) (h0 : P s)
    (hM : P (K.HandleMultiView s)) (hS : ∀ p, P (setSpecPosition s p)) :
    P (UpdateSpectatorPos K s) := by
  unfold UpdateSpectatorPos
  by_cases ha : s.m_Snap.m_SpecInfo.m_Active = true
  · rw [if_pos ha]
    by_cases hm : s.m_MultiViewActivated = true
    · rw [if_pos hm]
      exact hM
    · rw [if_neg hm]
      by_cases h2 : s.Client.State = K.STATE_DEMOPLAYBACK ∧ s.m_DemoSpecId ≠ K.SPEC_FOLLOW
          ∧ s.m_Snap.m_SpecInfo.m_SpectatorId ≠ K.SPEC_FREEVIEW
      · rw [if_pos h2]
        exact hS _
      · rw [if_neg h2]
        cases s.m_Snap.m_pSpectatorInfo with
        | none => exact h0
        | some Cur =>
          by_cases h3 : (s.Client.State = K.STATE_DEMOPLAYBACK ∧ s.m_DemoSpecId = K.SPEC_FOLLOW)
              ∨ (s.Client.State ≠ K.STATE_DEMOPLAYBACK
                  ∧ K.LiveSpectateCond s.m_Snap.m_SpecInfo = true)
          · simp only [if_pos h3]
            cases s.m_Snap.m_pPrevSpectatorInfo with
            | none => exact hS _
            | some Prev =>
              by_cases h4 : Prev.m_SpectatorId = Cur.m_SpectatorId
              · simp only [if_pos h4]
                exact hS _
              · simp only [if_neg h4]
                exact hS _
          · simp only [if_neg h3]
            exact h0
  · rw [if_neg ha]
    exact h0

theorem UpdateSpectatorPos_frozen (s : CGameClient T) (hHM : KeepsFrozenPos K K.HandleMultiView)
    (hg : GameOverFlag K s = true) :
    GameOverFlag K (UpdateSpectatorPos K s) = true
      ∧ (UpdateSpectatorPos K s).m_LocalCharacterPos = s.m_LocalCharacterPos := by
  apply UpdateSpectatorPos_cases K s
    (fun t => GameOverFlag K t = true ∧ t.m_LocalCharacterPos = s.m_LocalCharacterPos)
  · exact ⟨hg, rfl⟩
  · exact hHM s hg
  · intro p
    exact ⟨by rw [GameOverFlag_congr K s (setSpecPosition s p) rfl]; exact hg, rfl⟩

theorem UpdatePositions_frozen (hHM : KeepsFrozenPos K K.HandleMultiView)
    (hRM : KeepsFrozenPos K K.ResetMultiView)
    (hURC : KeepsFrozenPos K K.UpdateRenderedCharacters)
    (s : CGameClient T) (h : FreezeCase K s) :
    (UpdatePositions K s).m_LocalCharacterPos = s.m_LocalCharacterPos := by
  have hg : GameOverFlag K s = true := h.2.2.2
  unfold UpdatePositions
  simp only [UpdateLocalCharacterPos_frozen K s h]
  obtain ⟨h1, h2⟩ := UpdateSpectatorPos_frozen K s hHM hg
  split_ifs
  · obtain ⟨h3, h4⟩ := hRM _ h1
    rw [(hURC _ h3).2, h4, h2]
  · rw [(hURC _ h1).2, h2]

end Positions

/-- Counterexample to C5: with prediction switched off, the game-over flag set and
anti-ping off, `UpdatePositions` moves the local position from (0, 0) to (50, 0), the
blend of the two snapshot positions. -/
theorem gameover_snapshot_blend_moves :
    GameOverFlag plainExternals predictOffClient = true
      ∧ plainExternals.AntiPingPlayers predictOffClient = false
      ∧ predictOffClient.m_LocalCharacterPos = ⟨0, 0⟩
      ∧ (UpdatePositions plainExternals predictOffClient).m_LocalCharacterPos = ⟨50, 0⟩ := by
  refine ⟨by decide, rfl, rfl, ?_⟩
  have h : (UpdatePositions plainExternals predictOffClient).m_LocalCharacterPos
      = mix (CNetObj_Character.pos ⟨0, 0⟩) (CNetObj_Character.pos ⟨100, 0⟩) (1 / 2) := rfl
  rw [h]
  apply vec2_eq
  · rw [mix_x]
    norm_num [CNetObj_Character.pos]
  · rw [mix_y]
    norm_num [CNetObj_Character.pos]

/-- C5, amended: for every state in which prediction is enabled, the client is not playing
back a demo, anti-ping is off and the game-over flag of the current snapshot is set,
`UpdatePositions` leaves `m_LocalCharacterPos` unchanged, whatever the predicted positions
and the intra-tick fractions are; so it is unchanged after any number of consecutive calls
that each start in such a state. The collaborators `HandleMultiView`, `ResetMultiView` and
`UpdateRenderedCharacters` are taken to keep the flag and the position while the flag is
set. -/
theorem gameover_freezes_local_pos {T : ExtTypes} (K : Externals T)
    (hHM : KeepsFrozenPos K K.HandleMultiView) (hRM : KeepsFrozenPos K K.ResetMultiView)
    (hURC : KeepsFrozenPos K K.UpdateRenderedCharacters) (n : ℕ) :
    ∀ s : CGameClient T, (∀ k, k < n → FreezeCase K (UpdatePositionsN K k s)) →
      (UpdatePositionsN K n s).m_LocalCharacterPos = s.m_LocalCharacterPos := by
  induction n with
  | zero => intro s _; rfl
  | succ n ih =>
    intro s hcase
    have h0 : FreezeCase K s := hcase 0 (Nat.succ_pos n)
    have hrest : ∀ k, k < n → FreezeCase K (UpdatePositionsN K k (UpdatePositions K s)) :=
      fun k hk => hcase (k + 1) (Nat.succ_lt_succ hk)
    show (UpdatePositionsN K n (UpdatePositions K s)).m_LocalCharacterPos = _
    rw [ih (UpdatePositions K s) hrest, UpdatePositions_frozen K hHM hRM hURC s h0]

/-- Witness of C5, amended: two calls on the game-over client, whose rendered position (7, 9)
stays although the predicted character moved. -/
theorem gameover_freezes_local_pos_witness :
    KeepsFrozenPos plainExternals plainExternals.HandleMultiView
      ∧ KeepsFrozenPos plainExternals plainExternals.ResetMultiView
      ∧ KeepsFrozenPos plainExternals plainExternals.UpdateRenderedCharacters
      ∧ (∀ k, k < 2 → FreezeCase plainExternals (UpdatePositionsN plainExternals k gameOverClient))
      ∧ (UpdatePositionsN plainExternals 2 gameOverClient).m_LocalCharacterPos
          = gameOverClient.m_LocalCharacterPos := by
  have hid : KeepsFrozenPos plainExternals (fun s => s) := fun t h => ⟨h, rfl⟩
  have hcase : ∀ k, k < 2 →
      FreezeCase plainExternals (UpdatePositionsN plainExternals k gameOverClient) := by
    intro k hk
    interval_cases k
    · exact ⟨by decide, by decide, rfl, by decide⟩
    · exact ⟨by decide, by decide, rfl, by decide⟩
  exact ⟨hid, hid, hid, hcase, gameover_freezes_local_pos plainExternals hid hid hid 2
    gameOverClient hcase⟩

/-- Counterexample to C6: a client plays back a demo in free view; spectating is active,
multi-view is off, a current spectator-info record exists, the previous record names
another target, and the demo explicit-target case does not apply because the spectator
id is `SPEC_FREEVIEW`. `UpdatePositions` derives no spectator position: the position
stays (0, 0), not the (100, 200) of the current record, and the valid flag stays unset. -/
theorem spectator_switch_counterexample :
    demoFreeViewClient.m_Snap.m_SpecInfo.m_Active = true
      ∧ demoFreeViewClient.m_MultiViewActivated = false
      ∧ demoFreeViewClient.m_Snap.m_pSpectatorInfo = some ⟨3, 100, 200⟩
      ∧ demoFreeViewClient.m_Snap.m_pPrevSpectatorInfo = some ⟨2, 0, 0⟩
      ∧ ¬ (demoFreeViewClient.Client.State = plainExternals.STATE_DEMOPLAYBACK
          ∧ demoFreeViewClient.m_DemoSpecId ≠ plainExternals.SPEC_FOLLOW
          ∧ demoFreeViewClient.m_Snap.m_SpecInfo.m_SpectatorId ≠ plainExternals.SPEC_FREEVIEW)
      ∧ (UpdatePositions plainExternals demoFreeViewClient).m_Snap.m_SpecInfo.m_UsePosition
          = false
      ∧ (UpdatePositions plainExternals demoFreeViewClient).m_Snap.m_SpecInfo.m_Position
          = ⟨0, 0⟩ := by
  refine ⟨rfl, rfl, rfl, rfl, by decide, by decide, rfl⟩

/-- C6, amended: when spectating is active, multi-view is off, a current spectator-info
record exists and follow mode holds (demo playback with `m_DemoSpecId == SPEC_FOLLOW`, or no
demo playback and the rest of the condition of line 740 on `m_Snap.m_SpecInfo` holds), if
the previous spectator-info record names a different target id than the current one, then
after `UpdatePositions` the spectator position is the current record's (X, Y) exactly, for
every intra-tick fraction, and `m_UsePosition` is set. The collaborators `ResetMultiView`
and `UpdateRenderedCharacters` are taken to leave `m_Snap.m_SpecInfo` alone. -/
theorem spectator_switch_snaps {T : ExtTypes} (K : Externals T)
    (hRM : KeepsSpecInfo K.ResetMultiView) (hURC : KeepsSpecInfo K.UpdateRenderedCharacters)
    (s : CGameClient T) (Cur Prev : CNetObj_SpectatorInfo)
    (hact : s.m_Snap.m_SpecInfo.m_Active = true) (hmv : s.m_MultiViewActivated = false)
    (hcur : s.m_Snap.m_pSpectatorInfo = some Cur)
    (hprev : s.m_Snap.m_pPrevSpectatorInfo = some Prev)
    (hid : Prev.m_SpectatorId ≠ Cur.m_SpectatorId)
    (hfollow : (s.Client.State = K.STATE_DEMOPLAYBACK ∧ s.m_DemoSpecId = K.SPEC_FOLLOW)
      ∨ (s.Client.State ≠ K.STATE_DEMOPLAYBACK
          ∧ K.LiveSpectateCond s.m_Snap.m_SpecInfo = true)) :
    (UpdatePositions K s).m_Snap.m_SpecInfo.m_Position = Cur.pos
      ∧ (UpdatePositions K s).m_Snap.m_SpecInfo.m_UsePosition = true := by
  obtain ⟨e1, e2, e3, e4, _⟩ := UpdateLocalCharacterPos_snap K s
  have hspec : UpdateSpectatorPos K (UpdateLocalCharacterPos K s)
      = setSpecPosition (UpdateLocalCharacterPos K s) Cur.pos := by
    have h2 : ¬ (s.Client.State = K.STATE_DEMOPLAYBACK ∧ s.m_DemoSpecId ≠ K.SPEC_FOLLOW
        ∧ s.m_Snap.m_SpecInfo.m_SpectatorId ≠ K.SPEC_FREEVIEW) := by
      rintro ⟨hd, hf, _⟩
      rcases hfollow with ⟨_, hf2⟩ | ⟨hd2, _⟩
      · exact hf hf2
      · exact hd2 hd
    unfold UpdateSpectatorPos
    rw [e1, e2, e3, e4]
    simp only [hact, hmv, h2, hcur, hprev, hfollow, hid, if_true, if_false,
      Bool.false_eq_true]
  have hfin : (UpdatePositions K s).m_Snap.m_SpecInfo
      = (setSpecPosition (UpdateLocalCharacterPos K s) Cur.pos).m_Snap.m_SpecInfo := by
    unfold UpdatePositions
    simp only [hspec]
    split_ifs
    · rw [hURC, hRM]
    · rw [hURC]
  rw [hfin]
  exact ⟨rfl, rfl⟩

/-- Witness of C6, amended: an online client whose spectated target changed from 2 to 3. -/
theorem spectator_switch_snaps_witness :
    KeepsSpecInfo plainExternals.ResetMultiView
      ∧ KeepsSpecInfo plainExternals.UpdateRenderedCharacters
      ∧ (UpdatePositions plainExternals followClient).m_Snap.m_SpecInfo.m_Position
          = CNetObj_SpectatorInfo.pos ⟨3, 100, 200⟩
      ∧ (UpdatePositions plainExternals followClient).m_Snap.m_SpecInfo.m_UsePosition = true :=
  ⟨fun _ => rfl, fun _ => rfl,
    spectator_switch_snaps plainExternals (fun _ => rfl) (fun _ => rfl) followClient
      ⟨3, 100, 200⟩ ⟨2, 0, 0⟩ rfl rfl rfl rfl (by decide) (Or.inr ⟨by decide, by decide⟩)⟩

/-- C7: for all positions `A`, `B` and every fraction `0 ≤ f ≤ 1`, the blend `mix A B f` is
the convex combination `A * (1 - f) + B * f`, each coordinate of it lies between the
corresponding coordinates of `A` and `B`, it is `A` at `f = 0` and `B` at `f = 1`. -/
theorem mix_on_segment (A B : vec2) (f : ℚ) (h0 : 0 ≤ f) (h1 : f ≤ 1) :
    mix A B f = A * (1 - f) + B * f
      ∧ (min A.x B.x ≤ (mix A B f).x ∧ (mix A B f).x ≤ max A.x B.x)
      ∧ (min A.y B.y ≤ (mix A B f).y ∧ (mix A B f).y ≤ max A.y B.y)
      ∧ mix A B 0 = A ∧ mix A B 1 = B := by
  have hb : ∀ a b : ℚ, min a b ≤ a + (b - a) * f ∧ a + (b - a) * f ≤ max a b := by
    intro a b
    rcases le_total a b with hab | hab
    · rw [min_eq_left hab, max_eq_right hab]
      constructor
      · nlinarith [mul_nonneg (sub_nonneg.2 hab) h0]
      · nlinarith [mul_nonneg (sub_nonneg.2 hab) (sub_nonneg.2 h1)]
    · rw [min_eq_right hab, max_eq_left hab]
      constructor
      · nlinarith [mul_nonneg (sub_nonneg.2 hab) (sub_nonneg.2 h1)]
      · nlinarith [mul_nonneg (sub_nonneg.2 hab) h0]
  refine ⟨?_, ?_, ?_, ?_, ?_⟩
  · apply vec2_eq
    · rw [mix_x]
      show _ = A.x * (1 - f) + B.x * f
      ring
    · rw [mix_y]
      show _ = A.y * (1 - f) + B.y * f
      ring
  · rw [mix_x]
    exact hb A.x B.x
  · rw [mix_y]
    exact hb A.y B.y
  · apply vec2_eq
    · rw [mix_x]; ring
    · rw [mix_y]; ring
  · apply vec2_eq
    · rw [mix_x]; ring
    · rw [mix_y]; ring

/-- Witness of C7: the blend of (0, 0) and (100, 50) at one quarter. -/
theorem mix_on_segment_witness :
    (0 : ℚ) ≤ 1 / 4 ∧ (1 / 4 : ℚ) ≤ 1
      ∧ (min (0 : ℚ) 100 ≤ (mix ⟨0, 0⟩ ⟨100, 50⟩ (1 / 4)).x
        ∧ (mix ⟨0, 0⟩ ⟨100, 50⟩ (1 / 4)).x ≤ max (0 : ℚ) 100) :=
  ⟨by norm_num, by norm_num,
    (mix_on_segment ⟨0, 0⟩ ⟨100, 50⟩ (1 / 4) (by norm_num) (by norm_num)).2.1⟩

/-! ## The claims on manual-follow mode -/

/-- C8: in manual-follow mode (`m_ClDummyHammer` is 0), `OnSnapInput` for the dummy slot
returns size 0 exactly when the force flag is false and the direction, jump and hook of the
dummy input are all zero, and exactly then it writes no frame; in every other case it writes
the whole dummy input (as the call leaves it, that is with the fire latch released when the
tick counter was not zero) and returns the size of one input frame. -/
theorem manual_follow_emit {T : ExtTypes} (K : Externals T) (s : CGameClient T) (Force : Bool)
    (hmode : s.g_Config.m_ClDummyHammer = 0) :
    ((OnSnapInput K s true Force).size = 0 ↔
        (Force = false ∧ s.m_DummyInput.m_Direction = 0 ∧ s.m_DummyInput.m_Jump = 0
          ∧ s.m_DummyInput.m_Hook = 0))
      ∧ ((OnSnapInput K s true Force).pData = none ↔
        (Force = false ∧ s.m_DummyInput.m_Direction = 0 ∧ s.m_DummyInput.m_Jump = 0
          ∧ s.m_DummyInput.m_Hook = 0))
      ∧ (¬ (Force = false ∧ s.m_DummyInput.m_Direction = 0 ∧ s.m_DummyInput.m_Jump = 0
            ∧ s.m_DummyInput.m_Hook = 0) →
          (OnSnapInput K s true Force).pData
              = some (OnSnapInput K s true Force).state.m_DummyInput
            ∧ (OnSnapInput K s true Force).size = K.sizeof_PlayerInput)
      ∧ (OnSnapInput K s true Force).state.m_DummyInput
          = { s.m_DummyInput with
              m_Fire :=
                if s.m_DummyFire ≠ 0 then Int.land (wrapInt (s.m_HammerInput.m_Fire + 1)) (Int.not 1)
                else s.m_DummyInput.m_Fire } := by
  have hpos := K.sizeof_PlayerInput_pos
  have hne : K.sizeof_PlayerInput ≠ 0 := by omega
  have hstate : (OnSnapInput K s true Force).state.m_DummyInput
      = { s.m_DummyInput with
          m_Fire :=
            if s.m_DummyFire ≠ 0 then Int.land (wrapInt (s.m_HammerInput.m_Fire + 1)) (Int.not 1)
            else s.m_DummyInput.m_Fire } := by
    unfold OnSnapInput
    simp only [Bool.not_true, Bool.false_eq_true, if_false, hmode, if_true]
    by_cases hz : s.m_DummyFire = 0
    · simp only [hz, ne_eq, not_true_eq_false, if_false]
      split_ifs <;> rfl
    · simp only [hz, ne_eq, not_false_eq_true, if_true]
      split_ifs <;> rfl
  have hidle : (Force = false ∧ s.m_DummyInput.m_Direction = 0 ∧ s.m_DummyInput.m_Jump = 0
        ∧ s.m_DummyInput.m_Hook = 0) →
      (OnSnapInput K s true Force).size = 0 ∧ (OnSnapInput K s true Force).pData = none := by
    rintro ⟨hf, hd, hj, hh⟩
    unfold OnSnapInput
    simp only [Bool.not_true, Bool.false_eq_true, if_false, hmode, if_true]
    by_cases hz : s.m_DummyFire = 0
    · simp [hz, hf, hd, hj, hh]
    · simp [hz, hf, hd, hj, hh]
  have hbusy : ¬ (Force = false ∧ s.m_DummyInput.m_Direction = 0 ∧ s.m_DummyInput.m_Jump = 0
        ∧ s.m_DummyInput.m_Hook = 0) →
      (OnSnapInput K s true Force).pData
          = some (OnSnapInput K s true Force).state.m_DummyInput
        ∧ (OnSnapInput K s true Force).size = K.sizeof_PlayerInput := by
    intro hn
    unfold OnSnapInput
    simp only [Bool.not_true, Bool.false_eq_true, if_false, hmode, if_true]
    simp only [not_and_or] at hn
    by_cases hz : s.m_DummyFire = 0
    · rcases hn with h | h | h | h <;> simp [hz, h]
    · rcases hn with h | h | h | h <;> simp [hz, h]
  refine ⟨⟨?_, fun h => (hidle h).1⟩, ⟨?_, fun h => (hidle h).2⟩, hbusy, hstate⟩
  · intro h0
    by_contra hn
    rw [(hbusy hn).2] at h0
    exact hne h0
  · intro h0
    by_contra hn
    rw [(hbusy hn).1] at h0
    exact Option.some_ne_none _ h0

/-- Witness of C8: the zero client, whose dummy input is idle, without the force flag. -/
theorem manual_follow_emit_witness :
    zeroClient.g_Config.m_ClDummyHammer = 0
      ∧ ((OnSnapInput plainExternals zeroClient true false).size = 0 ↔
        (false = false ∧ zeroClient.m_DummyInput.m_Direction = 0
          ∧ zeroClient.m_DummyInput.m_Jump = 0 ∧ zeroClient.m_DummyInput.m_Hook = 0)) :=
  ⟨by decide, (manual_follow_emit plainExternals zeroClient false (by decide)).1⟩

/-- C9: in manual-follow mode, `OnSnapInput` for the dummy slot leaves the same client state
whether the force flag is true or false. -/
theorem manual_follow_force_state {T : ExtTypes} (K : Externals T) (s : CGameClient T)
    (hmode : s.g_Config.m_ClDummyHammer = 0) :
    (OnSnapInput K s true true).state = (OnSnapInput K s true false).state := by
  unfold OnSnapInput
  simp only [Bool.not_true, Bool.false_eq_true, if_false, hmode, if_true, Bool.not_false,
    Bool.true_and, Bool.false_and]
  split_ifs <;> rfl

/-- Witness of C9: the zero client with a pending tick counter. -/
theorem manual_follow_force_state_witness :
    ({ zeroClient with m_DummyFire := 7 } : CGameClient UnitTypes).g_Config.m_ClDummyHammer = 0
      ∧ (OnSnapInput plainExternals { zeroClient with m_DummyFire := 7 } true true).state.m_DummyFire
          = (OnSnapInput plainExternals { zeroClient with m_DummyFire := 7 } true
              false).state.m_DummyFire :=
  ⟨by decide,
    congrArg CGameClient.m_DummyFire
      (manual_follow_force_state plainExternals { zeroClient with m_DummyFire := 7 }
        (by decide))⟩

/-! ## The claims on the identity watchdog -/

/-- C10: when the identity watchdog runs on a slot whose countdown `c` is positive, with
`d = GameTick - PrevGameTick`, the new countdown is `c - min d c`; it is not negative, it is
0 exactly when `d ≥ c`, and it is `c - d` when `d < c`. This holds for the primary slot
(`CheckInfoPlayer`) and for the dummy slot (`CheckInfoDummy`). -/
theorem checkinfo_countdown {T : ExtTypes} (K : Externals T) (s : CGameClient T) (c : ℤ)
    (hc : 0 < c) :
    (s.m_aCheckInfo.a0 = c →
        (CheckInfoPlayer K s).m_aCheckInfo.a0
            = c - min (s.Client.GameTick.a0 - s.Client.PrevGameTick.a0) c
          ∧ 0 ≤ (CheckInfoPlayer K s).m_aCheckInfo.a0
          ∧ ((CheckInfoPlayer K s).m_aCheckInfo.a0 = 0
              ↔ c ≤ s.Client.GameTick.a0 - s.Client.PrevGameTick.a0)
          ∧ (s.Client.GameTick.a0 - s.Client.PrevGameTick.a0 < c →
              (CheckInfoPlayer K s).m_aCheckInfo.a0
                = c - (s.Client.GameTick.a0 - s.Client.PrevGameTick.a0)))
      ∧ (s.m_aCheckInfo.a1 = c →
        (CheckInfoDummy K s).m_aCheckInfo.a1
            = c - min (s.Client.GameTick.a1 - s.Client.PrevGameTick.a1) c
          ∧ 0 ≤ (CheckInfoDummy K s).m_aCheckInfo.a1
          ∧ ((CheckInfoDummy K s).m_aCheckInfo.a1 = 0
              ↔ c ≤ s.Client.GameTick.a1 - s.Client.PrevGameTick.a1)
          ∧ (s.Client.GameTick.a1 - s.Client.PrevGameTick.a1 < c →
              (CheckInfoDummy K s).m_aCheckInfo.a1
                = c - (s.Client.GameTick.a1 - s.Client.PrevGameTick.a1))) := by
  constructor
  · intro h
    have hne : s.m_aCheckInfo.a0 ≠ 0 := by omega
    have hgt : s.m_aCheckInfo.a0 > 0 := by omega
    have e : (CheckInfoPlayer K s).m_aCheckInfo.a0
        = c - min (s.Client.GameTick.a0 - s.Client.PrevGameTick.a0) c := by
      unfold CheckInfoPlayer
      simp only [hne, if_false, hgt, if_true, minimum]
      rw [h]
    rw [e]
    refine ⟨rfl, ?_, ?_, ?_⟩
    · omega
    · omega
    · intro hd
      omega
  · intro h
    have hne : s.m_aCheckInfo.a1 ≠ 0 := by omega
    have hgt : s.m_aCheckInfo.a1 > 0 := by omega
    have e : (CheckInfoDummy K s).m_aCheckInfo.a1
        = c - min (s.Client.GameTick.a1 - s.Client.PrevGameTick.a1) c := by
      unfold CheckInfoDummy
      simp only [hne, if_false, hgt, if_true, minimum]
      rw [h]
    rw [e]
    refine ⟨rfl, ?_, ?_, ?_⟩
    · omega
    · omega
    · intro hd
      omega

/-- Witness of C10: both countdowns stand at 50 and 3 ticks elapsed. -/
theorem checkinfo_countdown_witness :
    (0 : ℤ) < 50 ∧ countdownClient.m_aCheckInfo.a0 = 50
      ∧ (CheckInfoPlayer plainExternals countdownClient).m_aCheckInfo.a0
          = 50 - min (countdownClient.Client.GameTick.a0
              - countdownClient.Client.PrevGameTick.a0) 50 :=
  ⟨by decide, rfl, ((checkinfo_countdown plainExternals countdownClient 50 (by decide)).1 rfl).1⟩

/-! ## The claim on the lifecycle reset -/

/-- The state that `OnReset` leaves, member by member. -/
theorem OnReset_eq {T : ExtTypes} (K : Externals T) (s : CGameClient T) :
    OnReset K s =
    { g_Config := s.g_Config
      Client := s.Client
      m_Snap := K.InvalidateSnapshot s.m_Snap
      m_EditorMovementDelay := 5
      m_PredictedTick := -1
      m_aLastNewPredictedTick := ⟨-1, -1⟩
      m_LastRoundStartTick := -1
      m_LastRaceTick := -1
      m_LastFlagCarrierRed := -4
      m_LastFlagCarrierBlue := -4
      m_aCheckInfo := ⟨-1, -1⟩
      m_aLastPos := fill s.m_aLastPos ⟨0, 0⟩
      m_aLastActive := fill s.m_aLastActive false
      m_GameOver := false
      m_GamePaused := false
      m_PrevLocalId := -1
      m_SuppressEvents := false
      m_NewTick := false
      m_NewPredictedTick := false
      m_aFlagDropTick := Function.update (Function.update s.m_aFlagDropTick K.TEAM_RED 0) K.TEAM_BLUE 0
      m_ServerMode := K.SERVERMODE_PURE
      m_GameInfo := K.zero_GameInfo
      m_DemoSpecId := K.SPEC_FOLLOW
      m_LocalCharacterPos := ⟨0, 0⟩
      m_PredictedPrevChar := K.CharacterCore_Reset s.m_PredictedPrevChar
      m_PredictedChar := K.CharacterCore_Reset s.m_PredictedChar
      m_aLocalTuneZone := fill s.m_aLocalTuneZone (-1)
      m_aReceivedTuning := fill s.m_aReceivedTuning false
      m_aExpectingTuningForZone := fill s.m_aExpectingTuningForZone (-1)
      m_aExpectingTuningSince := fill s.m_aExpectingTuningSince 0
      m_aTuning := fill s.m_aTuning K.default_Tuning
      m_aClients := s.m_aClients.map K.ClientData_Reset
      m_aStats := s.m_aStats.map K.ClientStats_Reset
      m_NextChangeInfo := 0
      m_aLocalIds := ⟨-1, -1⟩
      m_DummyInput := CNetObj_PlayerInput.zero
      m_HammerInput := CNetObj_PlayerInput.zero
      m_DummyFire := 0
      m_ReceivedDDNetPlayer := false
      m_Teams := K.Teams_Reset s.m_Teams
      m_GameWorld := clearedWorld K s.m_GameWorld
      m_PredictedWorld := K.CopyWorld s.m_PredictedWorld (clearedWorld K s.m_GameWorld)
      m_PrevPredictedWorld := K.CopyWorld s.m_PrevPredictedWorld
        (K.CopyWorld s.m_PredictedWorld (clearedWorld K s.m_GameWorld))
      m_vSnapEntities := []
      m_aDDRaceMsgSent := fill s.m_aDDRaceMsgSent false
      m_aShowOthers := fill s.m_aShowOthers K.SHOW_OTHERS_NOT_SET
      m_aLastUpdateTick := fill s.m_aLastUpdateTick 0
      m_PredictedDummyId := -1
      m_IsDummySwapping := 0
      m_CharOrder := K.CharOrder_Reset s.m_CharOrder
      m_aSwitchStateTeam := fill s.m_aSwitchStateTeam (-1)
      m_LastShowDistanceZoom := 0
      m_LastZoom := 0
      m_LastScreenAspect := 0
      m_LastDeadzone := 0
      m_LastFollowFactor := 0
      m_LastDummyConnected := false
      m_MultiViewPersonalZoom := 0
      m_MultiViewActivated := false
      m_MultiView_m_IsInit := false
      m_MultiView_m_Rest := s.m_MultiView_m_Rest
      m_CursorInfo_m_CursorOwnerId := -1
      m_CursorInfo_m_NumSamples := 0
      m_Controls := (K.Components_OnReset (s.m_Controls, s.m_vpAll)).1
      m_vpAll := (K.Components_OnReset (s.m_Controls, s.m_vpAll)).2
      Editor := K.Editor_ResetIngameMoved (K.Editor_ResetMentions s.Editor)
      Collision := K.Collision_Unload s.Collision
      Layers := K.Layers_Unload s.Layers
      Sent := s.Sent } := rfl

/-- C13: for every prior state, after `OnReset` the predicted tick and the
last-new-predicted tick of both controller slots are -1, which is negative and so is the
value of no valid tick. -/
theorem OnReset_ticks_unset {T : ExtTypes} (K : Externals T) (s : CGameClient T) :
    (OnReset K s).m_PredictedTick = -1
      ∧ (OnReset K s).m_aLastNewPredictedTick.a0 = -1
      ∧ (OnReset K s).m_aLastNewPredictedTick.a1 = -1
      ∧ (OnReset K s).m_aLastNewPredictedTick.get false = -1
      ∧ (OnReset K s).m_aLastNewPredictedTick.get true = -1
      ∧ (-1 : ℤ) < 0 := by
  rw [OnReset_eq K s]
  exact ⟨rfl, rfl, rfl, rfl, rfl, by decide⟩

/-! ## The claim on multi-view -/

/-- C15: when `OnRender` initialises multi-view (not yet initialised, activation flag set),
it calls `InitMultiView` with `MultiViewTeamId`, which lies in the team range
`0 .. MAX_CLIENTS`: it is the team of the spectated player when that team is in the range,
and 0 when the team looked up is out of the range or the spectator id is negative. -/
theorem multiview_team_in_range {T : ExtTypes} (K : Externals T) (s : CGameClient T)
    (hmax : 0 ≤ K.MAX_CLIENTS) :
    (s.m_MultiView_m_IsInit = false → s.m_MultiViewActivated = true →
        CheckMultiView K s
          = if (K.InitMultiView s (MultiViewTeamId K s)).1 = true then
              (K.InitMultiView s (MultiViewTeamId K s)).2
            else K.ResetMultiView (K.InitMultiView s (MultiViewTeamId K s)).2)
      ∧ (0 ≤ MultiViewTeamId K s ∧ MultiViewTeamId K s ≤ K.MAX_CLIENTS)
      ∧ (0 ≤ s.m_Snap.m_SpecInfo.m_SpectatorId →
          0 ≤ K.Teams_Team s.m_Teams s.m_Snap.m_SpecInfo.m_SpectatorId →
          K.Teams_Team s.m_Teams s.m_Snap.m_SpecInfo.m_SpectatorId ≤ K.MAX_CLIENTS →
          MultiViewTeamId K s = K.Teams_Team s.m_Teams s.m_Snap.m_SpecInfo.m_SpectatorId)
      ∧ (0 ≤ s.m_Snap.m_SpecInfo.m_SpectatorId →
          (K.Teams_Team s.m_Teams s.m_Snap.m_SpecInfo.m_SpectatorId < 0
            ∨ K.MAX_CLIENTS < K.Teams_Team s.m_Teams s.m_Snap.m_SpecInfo.m_SpectatorId) →
          MultiViewTeamId K s = 0)
      ∧ (s.m_Snap.m_SpecInfo.m_SpectatorId < 0 → MultiViewTeamId K s = 0) := by
  refine ⟨?_, ?_, ?_, ?_, ?_⟩
  · intro hi ha
    unfold CheckMultiView
    simp only [hi, ha, Bool.not_false, Bool.and_self, if_true]
    cases (K.InitMultiView s (MultiViewTeamId K s)).1 <;> simp
  · unfold MultiViewTeamId
    simp only []
    split_ifs <;> omega
  · intro h1 h2 h3
    unfold MultiViewTeamId
    simp only []
    split_ifs <;> omega
  · intro h1 h2
    unfold MultiViewTeamId
    simp only []
    split_ifs <;> omega
  · intro h1
    unfold MultiViewTeamId
    simp only []
    split_ifs <;> omega

/-- Witness of C15: multi-view was activated while client 3 is spectated. -/
theorem multiview_team_in_range_witness :
    0 ≤ plainExternals.MAX_CLIENTS
      ∧ (0 ≤ MultiViewTeamId plainExternals multiViewClient
        ∧ MultiViewTeamId plainExternals multiViewClient ≤ plainExternals.MAX_CLIENTS) :=
  ⟨by decide, (multiview_team_in_range plainExternals multiViewClient (by decide)).2.1⟩

/-! ## Further claims on the input multiplexer -/

theorem land_neg_one (m : ℤ) : Int.land m (-1) = m := by
  show Int.land m (Int.negSucc 0) = m
  cases m with
  | ofNat n => simp [Int.land, Nat.ldiff]
  | negSucc n => simp [Int.land]

theorem land_not_one_eq (x : ℤ) : Int.land x (Int.not 1) = 2 * (x / 2) := by
  have h1 : Int.not 1 = Int.bit false (-1) := by decide
  conv_lhs => rw [← Int.bit_decomp x, h1, Int.land_bit]
  simp only [Bool.and_false, Int.bit_val, cond_false, add_zero]
  rw [land_neg_one, Int.div2_val]

theorem hammer_target {T : ExtTypes} (K : Externals T) (s : CGameClient T) (Force : Bool)
    (h : s.g_Config.m_ClDummyHammer ≠ 0) (hsize : (OnSnapInput K s true Force).size ≠ 0) :
    (OnSnapInput K s true Force).pData.map (fun f => (f.m_TargetX, f.m_TargetY))
      = some (truncToInt (K.toFloat (s.m_LocalCharacterPos.x - (DummyPredictedPos K s).x)),
          truncToInt (K.toFloat (s.m_LocalCharacterPos.y - (DummyPredictedPos K s).y))) := by
  have h25 : s.m_DummyFire % 25 = 0 := by
    by_contra hn
    rw [hammer_size K s Force h, if_neg hn] at hsize
    exact hsize rfl
  unfold OnSnapInput
  simp only [Bool.not_true, Bool.false_eq_true, if_false, h, ne_eq, tmod_25_eq_zero_iff, h25,
    not_true_eq_false]
  split_ifs <;> rfl

theorem manual_state {T : ExtTypes} (K : Externals T) (s : CGameClient T) (Force : Bool)
    (hmode : s.g_Config.m_ClDummyHammer = 0) :
    (s.m_DummyFire ≠ 0 →
        (OnSnapInput K s true Force).state.m_DummyInput.m_Fire
            = Int.land (wrapInt (s.m_HammerInput.m_Fire + 1)) (Int.not 1)
          ∧ (OnSnapInput K s true Force).state.m_DummyFire = 0)
      ∧ (s.m_DummyFire = 0 → (OnSnapInput K s true Force).state = s) := by
  unfold OnSnapInput
  simp only [Bool.not_true, Bool.false_eq_true, if_false, hmode, if_true]
  constructor
  · intro hz
    simp only [hz, ne_eq, not_false_eq_true, if_true]
    split_ifs <;> exact ⟨rfl, rfl⟩
  · intro hz
    simp only [hz, ne_eq, not_true_eq_false, if_false]
    split_ifs <;> rfl

/-- Counterexample to C16: the local position is (100, 50) and the dummy's predicted position
is (30, 20); the frame carries the target (70, 30), the vector from the dummy to the local
position, while the vector from the local position to the dummy truncates to (-70, -30). -/
theorem autohammer_aim_counterexample :
    aimClient.m_LocalCharacterPos = ⟨100, 50⟩
      ∧ DummyPredictedPos plainExternals aimClient = ⟨30, 20⟩
      ∧ (OnSnapInput plainExternals aimClient true false).pData.map
          (fun f => (f.m_TargetX, f.m_TargetY)) = some (70, 30)
      ∧ (truncToInt ((30 : ℚ) - 100), truncToInt ((20 : ℚ) - 50)) = (-70, -30) := by
  refine ⟨rfl, rfl, ?_, ?_⟩
  · rw [hammer_target plainExternals aimClient false (by decide) (by decide)]
    have hx : plainExternals.toFloat (aimClient.m_LocalCharacterPos.x
        - (DummyPredictedPos plainExternals aimClient).x) = 70 := by
      show (100 : ℚ) - 30 = 70
      norm_num
    have hy : plainExternals.toFloat (aimClient.m_LocalCharacterPos.y
        - (DummyPredictedPos plainExternals aimClient).y) = 30 := by
      show (50 : ℚ) - 20 = 30
      norm_num
    rw [hx, hy]
    simp [truncToInt]
  · have hx : (30 : ℚ) - 100 = -70 := by norm_num
    have hy : (20 : ℚ) - 50 = -30 := by norm_num
    rw [hx, hy]
    have cx : ⌈(-70 : ℚ)⌉ = -70 := by rw [Int.ceil_eq_iff]; norm_num
    have cy : ⌈(-30 : ℚ)⌉ = -30 := by rw [Int.ceil_eq_iff]; norm_num
    simp [truncToInt, cx, cy]

/-- C16, amended: every non-empty frame that `OnSnapInput` emits for the dummy slot in
auto-hammer mode has its target (`m_TargetX`, `m_TargetY`) equal to the integer-truncated
components of the float vector `MainPos - DummyPos`, which points from the dummy's predicted
position to the local character position `m_LocalCharacterPos`: each component is the
difference of the two coordinates rounded to a `float` (`toFloat`) and then cast to `int`. -/
theorem autohammer_aim {T : ExtTypes} (K : Externals T) (s : CGameClient T) (Force : Bool)
    (hmode : s.g_Config.m_ClDummyHammer ≠ 0)
    (hsize : (OnSnapInput K s true Force).size ≠ 0) :
    ∃ Frame, (OnSnapInput K s true Force).pData = some Frame
      ∧ Frame.m_TargetX
          = truncToInt (K.toFloat (s.m_LocalCharacterPos.x - (DummyPredictedPos K s).x))
      ∧ Frame.m_TargetY
          = truncToInt (K.toFloat (s.m_LocalCharacterPos.y - (DummyPredictedPos K s).y)) := by
  have h := hammer_target K s Force hmode hsize
  cases hp : (OnSnapInput K s true Force).pData with
  | none => rw [hp] at h; simp at h
  | some Frame =>
    rw [hp] at h
    simp only [Option.map_some', Option.some.injEq, Prod.mk.injEq] at h
    exact ⟨Frame, rfl, h.1, h.2⟩

/-- Witness of C16, amended: the first call on the aiming client emits a frame. -/
theorem autohammer_aim_witness :
    aimClient.g_Config.m_ClDummyHammer ≠ 0
      ∧ (OnSnapInput plainExternals aimClient true false).size ≠ 0
      ∧ ∃ Frame, (OnSnapInput plainExternals aimClient true false).pData = some Frame
        ∧ Frame.m_TargetX = truncToInt (plainExternals.toFloat (aimClient.m_LocalCharacterPos.x
            - (DummyPredictedPos plainExternals aimClient).x))
        ∧ Frame.m_TargetY = truncToInt (plainExternals.toFloat (aimClient.m_LocalCharacterPos.y
            - (DummyPredictedPos plainExternals aimClient).y)) :=
  ⟨by decide, by decide, autohammer_aim plainExternals aimClient false (by decide) (by decide)⟩

/-- Counterexample to C17: with reset-on-switch set to 2 and slot 1 becoming active, the
pressed hook of slot 0, the slot that becomes inactive, survives `OnDummySwap`, both in its
controller input and in the dummy input. -/
theorem swap_hook_counterexample :
    hookedSwapClient.g_Config.m_ClDummyResetOnSwitch ≠ 0
      ∧ hookedSwapClient.g_Config.m_ClDummy = true
      ∧ (OnDummySwap plainExternals hookedSwapClient).m_Controls.m_aInputData.a0.m_Hook = 1
      ∧ (OnDummySwap plainExternals hookedSwapClient).m_DummyInput.m_Hook = 1 := by
  refine ⟨by decide, rfl, by decide, by decide⟩

/-- C17, amended: after `OnDummySwap`, when reset-on-switch is set to a non-zero value other
than 2, the hook of the now-inactive slot `!g_Config.m_ClDummy` is 0, both in that slot's
controller input and in the dummy input copy that is sent for it; when it is set to 2, it
is the hook of the controller input of the now-active slot `g_Config.m_ClDummy` that is
0. -/
theorem swap_hook {T : ExtTypes} (K : Externals T) (s : CGameClient T) :
    (s.g_Config.m_ClDummyResetOnSwitch ≠ 0 → s.g_Config.m_ClDummyResetOnSwitch ≠ 2 →
        ((OnDummySwap K s).m_Controls.m_aInputData.get (!s.g_Config.m_ClDummy)).m_Hook = 0
          ∧ (OnDummySwap K s).m_DummyInput.m_Hook = 0)
      ∧ (s.g_Config.m_ClDummyResetOnSwitch = 2 →
        ((OnDummySwap K s).m_Controls.m_aInputData.get s.g_Config.m_ClDummy).m_Hook = 0) := by
  unfold OnDummySwap
  constructor
  · intro hr h2
    cases hd : s.g_Config.m_ClDummy <;> simp [hr, h2, hd, PerDummy.get, PerDummy.set]
  · intro h2
    cases hd : s.g_Config.m_ClDummy <;> simp [h2, hd, PerDummy.get, PerDummy.set]

/-- Witness of C17, amended: reset-on-switch is 1, slot 1 becomes active and the controller
input of slot 0, which becomes inactive, holds a pressed hook before the swap. -/
theorem swap_hook_witness :
    hookedSwapClient1.g_Config.m_ClDummyResetOnSwitch ≠ 0
      ∧ hookedSwapClient1.g_Config.m_ClDummyResetOnSwitch ≠ 2
      ∧ (hookedSwapClient1.m_Controls.m_aInputData.get
          (!hookedSwapClient1.g_Config.m_ClDummy)).m_Hook = 1
      ∧ ((OnDummySwap plainExternals hookedSwapClient1).m_Controls.m_aInputData.get
          (!hookedSwapClient1.g_Config.m_ClDummy)).m_Hook = 0
      ∧ (OnDummySwap plainExternals hookedSwapClient1).m_DummyInput.m_Hook = 0 :=
  ⟨by decide, by decide, by decide,
    ((swap_hook plainExternals hookedSwapClient1).1 (by decide) (by decide)).1,
    ((swap_hook plainExternals hookedSwapClient1).1 (by decide) (by decide)).2⟩

/-- Counterexample to C19: with the hammer fire value `h` at `INT_MAX` and the tick counter
at 7, the call in manual-follow mode sets the fire latch to `INT_MIN`, which is below `h`:
`h + 1` overflows in the 32-bit `int`. -/
theorem manual_follow_latch_overflow :
    maxFireClient.g_Config.m_ClDummyHammer = 0 ∧ maxFireClient.m_DummyFire ≠ 0
      ∧ maxFireClient.m_HammerInput.m_Fire = 2147483647
      ∧ (OnSnapInput plainExternals maxFireClient true false).state.m_DummyInput.m_Fire
          = -2147483648 := by
  refine ⟨by decide, by decide, rfl, ?_⟩
  rw [((manual_state plainExternals maxFireClient false (by decide)).1 (by decide)).1,
    land_not_one_eq]
  decide

/-- C19, amended: in manual-follow mode, when the tick counter `m_DummyFire` is not zero at
entry, `OnSnapInput` for the dummy slot sets the fire latch of the dummy input to
`(h + 1) & ~1` for the hammer fire value `h` and resets the counter to 0, so that a following
call in auto-hammer mode emits a frame at once; when `h` is an `int` below `INT_MAX`, the
latch is the smallest even integer that is at least `h`; when the counter is 0 at entry
the call leaves the state, and with it the fire latch, as it is. -/
theorem manual_follow_latch {T : ExtTypes} (K : Externals T) (s : CGameClient T)
    (Force : Bool) (hmode : s.g_Config.m_ClDummyHammer = 0) :
    (s.m_DummyFire ≠ 0 →
        (OnSnapInput K s true Force).state.m_DummyInput.m_Fire
            = Int.land (wrapInt (s.m_HammerInput.m_Fire + 1)) (Int.not 1)
          ∧ (OnSnapInput K s true Force).state.m_DummyFire = 0
          ∧ (∀ (Config : CConfig) (Force2 : Bool), Config.m_ClDummyHammer ≠ 0 →
              (OnSnapInput K { (OnSnapInput K s true Force).state with g_Config := Config }
                true Force2).size ≠ 0))
      ∧ (s.m_DummyFire ≠ 0 → -2147483648 ≤ s.m_HammerInput.m_Fire →
          s.m_HammerInput.m_Fire < 2147483647 →
          (OnSnapInput K s true Force).state.m_DummyInput.m_Fire % 2 = 0
          ∧ s.m_HammerInput.m_Fire ≤ (OnSnapInput K s true Force).state.m_DummyInput.m_Fire
          ∧ (∀ e : ℤ, e % 2 = 0 → s.m_HammerInput.m_Fire ≤ e →
              (OnSnapInput K s true Force).state.m_DummyInput.m_Fire ≤ e))
      ∧ (s.m_DummyFire = 0 →
          (OnSnapInput K s true Force).state.m_DummyInput.m_Fire = s.m_DummyInput.m_Fire
            ∧ (OnSnapInput K s true Force).state.m_DummyFire = 0) := by
  obtain ⟨h1, h0⟩ := manual_state K s Force hmode
  refine ⟨?_, ?_, ?_⟩
  · intro hz
    obtain ⟨hf, hc⟩ := h1 hz
    have hpos := K.sizeof_PlayerInput_pos
    refine ⟨hf, hc, ?_⟩
    intro Config Force2 hcfg
    rw [hammer_size K _ Force2 hcfg]
    show (if (OnSnapInput K s true Force).state.m_DummyFire % 25 = 0 then K.sizeof_PlayerInput
      else 0) ≠ 0
    rw [hc]
    simp only [Int.zero_emod, if_true]
    omega
  · intro hz hlo hhi
    obtain ⟨hf, _⟩ := h1 hz
    rw [hf, land_not_one_eq, wrapInt_of_range _ (by omega) (by omega)]
    exact ⟨by omega, by omega, fun e he hle => by omega⟩
  · intro hz
    rw [h0 hz]
    exact ⟨rfl, hz⟩

/-- Witness of C19, amended: the counter stands at 7 and the hammer fire value at 5, so the
latch becomes 6. -/
theorem manual_follow_latch_witness :
    afterHammerClient.g_Config.m_ClDummyHammer = 0 ∧ afterHammerClient.m_DummyFire ≠ 0
      ∧ -2147483648 ≤ afterHammerClient.m_HammerInput.m_Fire
      ∧ afterHammerClient.m_HammerInput.m_Fire < 2147483647
      ∧ (OnSnapInput plainExternals afterHammerClient true false).state.m_DummyInput.m_Fire % 2
          = 0
      ∧ afterHammerClient.m_HammerInput.m_Fire
          ≤ (OnSnapInput plainExternals afterHammerClient true false).state.m_DummyInput.m_Fire :=
  ⟨by decide, by decide, by decide, by decide,
    ((manual_follow_latch plainExternals afterHammerClient false (by decide)).2.1 (by decide)
      (by decide) (by decide)).1,
    ((manual_follow_latch plainExternals afterHammerClient false (by decide)).2.1 (by decide)
      (by decide) (by decide)).2.1⟩

/-! ## Further claims on the identity watchdog -/

section Watchdog

variable {T : ExtTypes} (K : Externals T)

theorem PlayerInfoDiffers_false_iff (hstr : ∀ a b, K.str_comp a b = 0 ↔ a = b)
    (s : CGameClient T) : PlayerInfoDiffers K s = false ↔ PlayerInfoAcknowledged K s := by
  unfold PlayerInfoDiffers PlayerInfoAcknowledged
  simp only [Bool.or_eq_false_iff, decide_eq_false_iff_not, ne_eq, not_not, hstr, and_assoc]

theorem DummyInfoDiffers_false_iff (hstr : ∀ a b, K.str_comp a b = 0 ↔ a = b)
    (s : CGameClient T) : DummyInfoDiffers K s = false ↔ DummyInfoAcknowledged K s := by
  unfold DummyInfoDiffers DummyInfoAcknowledged
  simp only [Bool.or_eq_false_iff, decide_eq_false_iff_not, ne_eq, not_not, hstr, and_assoc]

theorem afterDecrement_sentinel (c d : ℤ) (h : afterDecrement c d = -1) : c = -1 := by
  unfold afterDecrement minimum at h
  split_ifs at h with hc
  · omega
  · exact h

theorem CheckInfoPlayer_match (s : CGameClient T) (h0 : s.m_aCheckInfo.a0 = 0)
    (hsix : s.Client.IsSixup = false) (hsame : PlayerInfoDiffers K s = false) :
    (CheckInfoPlayer K s).m_aCheckInfo.a0 = -1 ∧ (CheckInfoPlayer K s).Sent = s.Sent := by
  unfold CheckInfoPlayer
  simp only [h0, if_true, hsix, Bool.false_eq_true, if_false, hsame]
  constructor <;> simp

theorem CheckInfoPlayer_mismatch (s : CGameClient T) (h0 : s.m_aCheckInfo.a0 = 0)
    (hsix : s.Client.IsSixup = false) (hdiff : PlayerInfoDiffers K s = true) :
    (CheckInfoPlayer K s).Sent = s.Sent ++ [Announcement.SendInfo false]
      ∧ (CheckInfoPlayer K s).m_aCheckInfo.a0
          = afterDecrement (K.SendInfo s false).m_aCheckInfo.a0
              ((K.SendInfo s false).Client.GameTick.a0
                - (K.SendInfo s false).Client.PrevGameTick.a0) := by
  unfold CheckInfoPlayer
  simp only [h0, if_true, hsix, Bool.false_eq_true, if_false, hdiff, announce, afterDecrement]
  constructor <;> split_ifs <;> rfl

theorem CheckInfoDummy_match (s : CGameClient T) (h0 : s.m_aCheckInfo.a1 = 0)
    (hsix : s.Client.IsSixup = false) (hsame : DummyInfoDiffers K s = false) :
    (CheckInfoDummy K s).m_aCheckInfo.a1 = -1 ∧ (CheckInfoDummy K s).Sent = s.Sent := by
  unfold CheckInfoDummy
  simp only [h0, if_true, hsix, Bool.false_eq_true, if_false, hsame]
  constructor <;> simp

theorem CheckInfoDummy_mismatch (s : CGameClient T) (h0 : s.m_aCheckInfo.a1 = 0)
    (hsix : s.Client.IsSixup = false) (hdiff : DummyInfoDiffers K s = true) :
    (CheckInfoDummy K s).Sent = s.Sent ++ [Announcement.SendDummyInfo false]
      ∧ (CheckInfoDummy K s).m_aCheckInfo.a1
          = afterDecrement (K.SendDummyInfo s false).m_aCheckInfo.a1
              ((K.SendDummyInfo s false).Client.GameTick.a1
                - (K.SendDummyInfo s false).Client.PrevGameTick.a1) := by
  unfold CheckInfoDummy
  simp only [h0, if_true, hsix, Bool.false_eq_true, if_false, hdiff, announce, afterDecrement]
  constructor <;> split_ifs <;> rfl

end Watchdog

/-- Counterexample to C11, on a 0.7 connection with the countdown of the primary slot at 0.
When the wanted skin is in place, a configured name that differs from the acknowledged one
triggers no announcement and the countdown becomes -1; when the wanted skin is not in place,
`SendSkinChange7` is called and the countdown is not set to -1 although every acknowledged
field equals the configuration. -/
theorem checkinfo_sixup_counterexample :
    (sixupClient.m_aCheckInfo.a0 = 0
        ∧ ¬ PlayerInfoAcknowledged plainExternals sixupClient
        ∧ (CheckInfoPlayer plainExternals sixupClient).m_aCheckInfo.a0 = -1
        ∧ (CheckInfoPlayer plainExternals sixupClient).Sent = [])
      ∧ (sixupMatchClient.m_aCheckInfo.a0 = 0
        ∧ PlayerInfoAcknowledged skinPendingExternals sixupMatchClient
        ∧ (CheckInfoPlayer skinPendingExternals sixupMatchClient).m_aCheckInfo.a0 = 0
        ∧ (CheckInfoPlayer skinPendingExternals sixupMatchClient).Sent
            = [Announcement.SendSkinChange7 false]) := by
  refine ⟨⟨rfl, ?_, by decide, by decide⟩, ⟨rfl, ?_, by decide, by decide⟩⟩
  · unfold PlayerInfoAcknowledged
    decide
  · unfold PlayerInfoAcknowledged
    decide

/-- C11, amended: on a connection that is not a 0.7 connection, when the identity watchdog
runs on a slot whose countdown is exactly 0: if every last-acknowledged identity field of
that slot (name, clan, country, skin name, custom-colour flag, body colour, feet colour)
equals the live configuration, the countdown becomes -1 and no announcement is sent; if
any field differs, the identity announcement of the slot is sent again (`SendInfo(false)`,
`SendDummyInfo(false)`) and the watchdog does not set the countdown to -1: the countdown
is the one the sender leaves, decremented when it is positive. `str_comp` is taken to
return 0 exactly on equal strings. -/
theorem checkinfo_zero {T : ExtTypes} (K : Externals T)
    (hstr : ∀ a b, K.str_comp a b = 0 ↔ a = b) (s : CGameClient T)
    (hsix : s.Client.IsSixup = false) :
    (s.m_aCheckInfo.a0 = 0 →
        (PlayerInfoAcknowledged K s →
          (CheckInfoPlayer K s).m_aCheckInfo.a0 = -1 ∧ (CheckInfoPlayer K s).Sent = s.Sent)
        ∧ (¬ PlayerInfoAcknowledged K s →
          (CheckInfoPlayer K s).Sent = s.Sent ++ [Announcement.SendInfo false]
            ∧ (CheckInfoPlayer K s).m_aCheckInfo.a0
                = afterDecrement (K.SendInfo s false).m_aCheckInfo.a0
                    ((K.SendInfo s false).Client.GameTick.a0
                      - (K.SendInfo s false).Client.PrevGameTick.a0)
            ∧ ((CheckInfoPlayer K s).m_aCheckInfo.a0 = -1 →
                (K.SendInfo s false).m_aCheckInfo.a0 = -1)))
      ∧ (s.m_aCheckInfo.a1 = 0 →
        (DummyInfoAcknowledged K s →
          (CheckInfoDummy K s).m_aCheckInfo.a1 = -1 ∧ (CheckInfoDummy K s).Sent = s.Sent)
        ∧ (¬ DummyInfoAcknowledged K s →
          (CheckInfoDummy K s).Sent = s.Sent ++ [Announcement.SendDummyInfo false]
            ∧ (CheckInfoDummy K s).m_aCheckInfo.a1
                = afterDecrement (K.SendDummyInfo s false).m_aCheckInfo.a1
                    ((K.SendDummyInfo s false).Client.GameTick.a1
                      - (K.SendDummyInfo s false).Client.PrevGameTick.a1)
            ∧ ((CheckInfoDummy K s).m_aCheckInfo.a1 = -1 →
                (K.SendDummyInfo s false).m_aCheckInfo.a1 = -1))) := by
  constructor
  · intro h0
    constructor
    · intro hack
      exact CheckInfoPlayer_match K s h0 hsix ((PlayerInfoDiffers_false_iff K hstr s).2 hack)
    · intro hnack
      have hdiff : PlayerInfoDiffers K s = true := by
        cases hv : PlayerInfoDiffers K s
        · exact absurd ((PlayerInfoDiffers_false_iff K hstr s).1 hv) hnack
        · rfl
      obtain ⟨h1, h2⟩ := CheckInfoPlayer_mismatch K s h0 hsix hdiff
      refine ⟨h1, h2, fun h => ?_⟩
      rw [h2] at h
      exact afterDecrement_sentinel _ _ h
  · intro h0
    constructor
    · intro hack
      exact CheckInfoDummy_match K s h0 hsix ((DummyInfoDiffers_false_iff K hstr s).2 hack)
    · intro hnack
      have hdiff : DummyInfoDiffers K s = true := by
        cases hv : DummyInfoDiffers K s
        · exact absurd ((DummyInfoDiffers_false_iff K hstr s).1 hv) hnack
        · rfl
      obtain ⟨h1, h2⟩ := CheckInfoDummy_mismatch K s h0 hsix hdiff
      refine ⟨h1, h2, fun h => ?_⟩
      rw [h2] at h
      exact afterDecrement_sentinel _ _ h

/-- Witness of C11, amended: on a 0.6 connection with the countdown at 0, a configured name
that differs from the acknowledged one makes the watchdog call `SendInfo(false)`. -/
theorem checkinfo_zero_witness :
    (∀ a b, plainExternals.str_comp a b = 0 ↔ a = b)
      ∧ renamedClient.Client.IsSixup = false
      ∧ renamedClient.m_aCheckInfo.a0 = 0
      ∧ ¬ PlayerInfoAcknowledged plainExternals renamedClient
      ∧ (CheckInfoPlayer plainExternals renamedClient).Sent
          = renamedClient.Sent ++ [Announcement.SendInfo false] := by
  have hstr : ∀ a b, plainExternals.str_comp a b = 0 ↔ a = b := by
    intro a b
    show (if a = b then (0 : ℤ) else 1) = 0 ↔ a = b
    by_cases h : a = b <;> simp [h]
  have hnack : ¬ PlayerInfoAcknowledged plainExternals renamedClient := by
    unfold PlayerInfoAcknowledged
    decide
  exact ⟨hstr, rfl, rfl, hnack,
    (((checkinfo_zero plainExternals hstr renamedClient rfl).1 rfl).2 hnack).1⟩

section Gate

variable {T : ExtTypes} (K : Externals T)

theorem SameWatchdogView_refl (t : CGameClient T) : SameWatchdogView K t t :=
  ⟨rfl, rfl, rfl, rfl, rfl⟩

theorem SameWatchdogView_trans {t u v : CGameClient T} (h1 : SameWatchdogView K t u)
    (h2 : SameWatchdogView K u v) : SameWatchdogView K t v :=
  ⟨h2.1.trans h1.1, h2.2.1.trans h1.2.1, h2.2.2.1.trans h1.2.2.1,
    h2.2.2.2.1.trans h1.2.2.2.1, h2.2.2.2.2.trans h1.2.2.2.2⟩

theorem UpdateLocalCharacterPos_view (s : CGameClient T) :
    SameWatchdogView K s (UpdateLocalCharacterPos K s) := by
  unfold UpdateLocalCharacterPos
  split_ifs <;>
    first
      | exact SameWatchdogView_refl K s
      | exact ⟨rfl, rfl, rfl, rfl, rfl⟩
      | (split <;> exact ⟨rfl, rfl, rfl, rfl, rfl⟩)

theorem UpdatePositions_view (hHM : KeepsWatchdogView K K.HandleMultiView)
    (hRM : KeepsWatchdogView K K.ResetMultiView)
    (hURC : KeepsWatchdogView K K.UpdateRenderedCharacters) (s : CGameClient T) :
    SameWatchdogView K s (UpdatePositions K s) := by
  have h1 := UpdateLocalCharacterPos_view K s
  have h2 : SameWatchdogView K (UpdateLocalCharacterPos K s)
      (UpdateSpectatorPos K (UpdateLocalCharacterPos K s)) := by
    apply UpdateSpectatorPos_cases K (UpdateLocalCharacterPos K s)
      (fun t => SameWatchdogView K (UpdateLocalCharacterPos K s) t)
    · exact SameWatchdogView_refl K _
    · exact hHM _
    · intro p
      exact ⟨rfl, rfl, rfl, rfl, rfl⟩
  have h12 := SameWatchdogView_trans K h1 h2
  unfold UpdatePositions
  simp only []
  split_ifs
  · exact SameWatchdogView_trans K (SameWatchdogView_trans K h12 (hRM _)) (hURC _)
  · exact SameWatchdogView_trans K h12 (hURC _)

theorem CheckMultiView_view
    (hInit : ∀ t Team, SameWatchdogView K t (K.InitMultiView t Team).2)
    (hRM : KeepsWatchdogView K K.ResetMultiView) (s : CGameClient T) :
    SameWatchdogView K s (CheckMultiView K s) := by
  unfold CheckMultiView
  simp only []
  split_ifs
  · exact SameWatchdogView_trans K (hInit _ _) (hRM _)
  · exact hInit _ _
  · exact SameWatchdogView_refl K s

theorem ResendInfoCheck_gated (s : CGameClient T)
    (hgate : s.Client.State ≠ K.STATE_ONLINE ∨ K.Menus_IsActive s.m_vpAll = true
      ∨ s.m_NewTick = false) :
    (ResendInfoCheck K s).m_aCheckInfo = s.m_aCheckInfo ∧ (ResendInfoCheck K s).Sent = s.Sent := by
  have hn : ¬ (s.Client.State = K.STATE_ONLINE ∧ K.Menus_IsActive s.m_vpAll = false
      ∧ s.m_NewTick = true) := by
    rintro ⟨h1, h2, h3⟩
    rcases hgate with h | h | h
    · exact h h1
    · rw [h2] at h; exact Bool.false_ne_true h
    · rw [h3] at h; exact Bool.false_ne_true h.symm
  unfold ResendInfoCheck
  simp only []
  split_ifs <;> exact ⟨rfl, rfl⟩

end Gate

/-- Counterexample to C12: at entry to `OnRender` the client is not online (it is loading);
it comes online while the components are rendered, so that the check of line 818, which
reads the state after the rendering, passes and `SendInfo(false)` is called. -/
theorem onrender_gate_counterexample :
    connectingClient.Client.State ≠ connectingExternals.STATE_ONLINE
      ∧ connectingClient.Sent = []
      ∧ (OnRender connectingExternals connectingClient).Sent
          = [Announcement.SendInfo false] := by
  refine ⟨by decide, rfl, by decide⟩

/-- C12, amended: if, when `OnRender` reaches the identity check (line 808, after the
components were rendered), the client is not online, or the menu is active, or the new-tick
flag is not set, then `OnRender` leaves both identity-check countdowns as they are at that
point and sends no identity announcement. These are the values at entry to `OnRender`
when the collaborators called before the check (`InitMultiView`, `ResetMultiView`,
`HandleMultiView`, `UpdateRenderedCharacters` and the rendering of lines 779-806) change
nothing of what the check reads. -/
theorem onrender_gate {T : ExtTypes} (K : Externals T) (s : CGameClient T)
    (hgate : (BeforeInfoCheck K s).Client.State ≠ K.STATE_ONLINE
      ∨ K.Menus_IsActive (BeforeInfoCheck K s).m_vpAll = true
      ∨ (BeforeInfoCheck K s).m_NewTick = false) :
    ((OnRender K s).m_aCheckInfo = (BeforeInfoCheck K s).m_aCheckInfo
        ∧ (OnRender K s).Sent = (BeforeInfoCheck K s).Sent)
      ∧ ((∀ t Team, SameWatchdogView K t (K.InitMultiView t Team).2) →
          KeepsWatchdogView K K.ResetMultiView → KeepsWatchdogView K K.HandleMultiView →
          KeepsWatchdogView K K.UpdateRenderedCharacters →
          KeepsWatchdogView K K.RenderSystems →
          (OnRender K s).m_aCheckInfo = s.m_aCheckInfo ∧ (OnRender K s).Sent = s.Sent) := by
  have hres : (OnRender K s).m_aCheckInfo = (BeforeInfoCheck K s).m_aCheckInfo
      ∧ (OnRender K s).Sent = (BeforeInfoCheck K s).Sent :=
    ResendInfoCheck_gated K (BeforeInfoCheck K s) hgate
  refine ⟨hres, ?_⟩
  intro hInit hRM hHM hURC hRender
  have hview : SameWatchdogView K s (BeforeInfoCheck K s) :=
    SameWatchdogView_trans K
      (SameWatchdogView_trans K (CheckMultiView_view K hInit hRM s)
        (UpdatePositions_view K hHM hRM hURC _))
      (hRender _)
  obtain ⟨_, _, _, v4, v5⟩ := hview
  exact ⟨hres.1.trans v4, hres.2.trans v5⟩

/-- Witness of C12, amended: a render frame of a client that is online and has the countdown
at 0 and a name to announce, but on which no new tick was crossed. -/
theorem onrender_gate_witness :
    ((BeforeInfoCheck plainExternals renamedClient).Client.State ≠ plainExternals.STATE_ONLINE
        ∨ plainExternals.Menus_IsActive (BeforeInfoCheck plainExternals renamedClient).m_vpAll
          = true
        ∨ (BeforeInfoCheck plainExternals renamedClient).m_NewTick = false)
      ∧ (OnRender plainExternals renamedClient).m_aCheckInfo
          = (BeforeInfoCheck plainExternals renamedClient).m_aCheckInfo
      ∧ (OnRender plainExternals renamedClient).Sent
          = (BeforeInfoCheck plainExternals renamedClient).Sent :=
  ⟨Or.inr (Or.inr rfl),
    (onrender_gate plainExternals renamedClient (Or.inr (Or.inr rfl))).1⟩

/-! ## Further claims on the position reconciler -/

section Blend

variable {T : ExtTypes} (K : Externals T)

theorem UpdateLocalCharacterPos_unpredicted (s : CGameClient T) (hno : NoPrediction K s) :
    (∀ Cur Prev, s.m_Snap.m_pLocalCharacter = some Cur →
        s.m_Snap.m_pLocalPrevCharacter = some Prev →
        (UpdateLocalCharacterPos K s).m_LocalCharacterPos
          = mix Prev.pos Cur.pos (s.Client.IntraGameTick.get s.g_Config.m_ClDummy))
      ∧ ((s.m_Snap.m_pLocalCharacter = none ∨ s.m_Snap.m_pLocalPrevCharacter = none) →
        UpdateLocalCharacterPos K s = s) := by
  have hn : ¬ (s.g_Config.m_ClPredict ≠ 0 ∧ s.Client.State ≠ K.STATE_DEMOPLAYBACK) := by
    rintro ⟨h1, h2⟩
    rcases hno with h | h
    · exact h1 h
    · exact h2 h
  unfold UpdateLocalCharacterPos
  rw [if_neg hn]
  constructor
  · intro Cur Prev hc hpv
    rw [hc, hpv]
  · intro h
    rcases h with h | h
    · rw [h]
    · rw [h]
      cases s.m_Snap.m_pLocalCharacter <;> rfl

theorem UpdatePositions_unpredicted (hHM : KeepsUnpredictedPos K K.HandleMultiView)
    (hRM : KeepsUnpredictedPos K K.ResetMultiView)
    (hURC : KeepsUnpredictedPos K K.UpdateRenderedCharacters)
    (s : CGameClient T) (hno : NoPrediction K s) :
    (UpdatePositions K s).m_LocalCharacterPos
      = (UpdateLocalCharacterPos K s).m_LocalCharacterPos := by
  obtain ⟨_, _, _, e4, e5⟩ := UpdateLocalCharacterPos_snap K s
  have hno1 : NoPrediction K (UpdateLocalCharacterPos K s) := by
    unfold NoPrediction
    rw [e4, e5]
    exact hno
  have h2 : NoPrediction K (UpdateSpectatorPos K (UpdateLocalCharacterPos K s))
      ∧ (UpdateSpectatorPos K (UpdateLocalCharacterPos K s)).m_LocalCharacterPos
        = (UpdateLocalCharacterPos K s).m_LocalCharacterPos := by
    apply UpdateSpectatorPos_cases K (UpdateLocalCharacterPos K s)
      (fun t => NoPrediction K t
        ∧ t.m_LocalCharacterPos = (UpdateLocalCharacterPos K s).m_LocalCharacterPos)
    · exact ⟨hno1, rfl⟩
    · exact hHM _ hno1
    · intro p
      exact ⟨hno1, rfl⟩
  unfold UpdatePositions
  simp only []
  split_ifs
  · obtain ⟨h3, h4⟩ := hRM _ h2.1
    rw [(hURC _ h3).2, h4, h2.2]
  · rw [(hURC _ h2.1).2, h2.2]

theorem UpdateLocalCharacterPos_predicted (s : CGameClient T)
    (hp : s.g_Config.m_ClPredict ≠ 0) (hd : s.Client.State ≠ K.STATE_DEMOPLAYBACK) :
    UpdateLocalCharacterPos K s
      = if s.m_Snap.m_pLocalCharacter.isSome = true ∧ GameOverFlag K s = false then
          { s with m_LocalCharacterPos := PredictedBlend s }
        else s := by
  unfold UpdateLocalCharacterPos PredictedBlend
  simp only [hp, hd, ne_eq, not_false_eq_true, and_self, if_true]
  cases K.AntiPingPlayers s <;> cases s.m_Snap.m_pLocalCharacter <;>
    cases GameOverFlag K s <;> simp

theorem UpdatePositions_keeps (hHM : KeepsLocalPos K.HandleMultiView)
    (hRM : KeepsLocalPos K.ResetMultiView) (hURC : KeepsLocalPos K.UpdateRenderedCharacters)
    (s : CGameClient T) :
    (UpdatePositions K s).m_LocalCharacterPos
      = (UpdateLocalCharacterPos K s).m_LocalCharacterPos := by
  have h2 : (UpdateSpectatorPos K (UpdateLocalCharacterPos K s)).m_LocalCharacterPos
      = (UpdateLocalCharacterPos K s).m_LocalCharacterPos := by
    apply UpdateSpectatorPos_cases K (UpdateLocalCharacterPos K s)
      (fun t => t.m_LocalCharacterPos = (UpdateLocalCharacterPos K s).m_LocalCharacterPos)
    · rfl
    · exact hHM _
    · intro p
      rfl
  unfold UpdatePositions
  simp only []
  split_ifs
  · rw [hURC, hRM, h2]
  · rw [hURC, h2]

end Blend

/-- C14: for every state in which prediction is disabled or the client plays back a demo,
the first part of `UpdatePositions` (lines 696-723) sets the local position to the blend of
`vec2(m_X, m_Y)` of the previous and of the current snapshot character by the server
intra-tick fraction when the local character is present in both snapshots, and leaves the
state, and with it the last local position, as it is when the character is missing from
either. That is the position with which `UpdatePositions` returns when the collaborators
called afterwards (`HandleMultiView`, `ResetMultiView`, `UpdateRenderedCharacters`) keep
the local position while there is no prediction. -/
theorem snapshot_interpolation {T : ExtTypes} (K : Externals T) (s : CGameClient T)
    (hno : NoPrediction K s) :
    (∀ Cur Prev, s.m_Snap.m_pLocalCharacter = some Cur →
        s.m_Snap.m_pLocalPrevCharacter = some Prev →
        (UpdateLocalCharacterPos K s).m_LocalCharacterPos
          = mix ⟨(Prev.m_X : ℚ), (Prev.m_Y : ℚ)⟩ ⟨(Cur.m_X : ℚ), (Cur.m_Y : ℚ)⟩
              (s.Client.IntraGameTick.get s.g_Config.m_ClDummy))
      ∧ ((s.m_Snap.m_pLocalCharacter = none ∨ s.m_Snap.m_pLocalPrevCharacter = none) →
        UpdateLocalCharacterPos K s = s)
      ∧ (KeepsUnpredictedPos K K.HandleMultiView → KeepsUnpredictedPos K K.ResetMultiView →
          KeepsUnpredictedPos K K.UpdateRenderedCharacters →
          (∀ Cur Prev, s.m_Snap.m_pLocalCharacter = some Cur →
            s.m_Snap.m_pLocalPrevCharacter = some Prev →
            (UpdatePositions K s).m_LocalCharacterPos
              = mix ⟨(Prev.m_X : ℚ), (Prev.m_Y : ℚ)⟩ ⟨(Cur.m_X : ℚ), (Cur.m_Y : ℚ)⟩
                  (s.Client.IntraGameTick.get s.g_Config.m_ClDummy))
          ∧ ((s.m_Snap.m_pLocalCharacter = none ∨ s.m_Snap.m_pLocalPrevCharacter = none) →
            (UpdatePositions K s).m_LocalCharacterPos = s.m_LocalCharacterPos)) := by
  obtain ⟨hboth, hmiss⟩ := UpdateLocalCharacterPos_unpredicted K s hno
  refine ⟨hboth, hmiss, ?_⟩
  intro hHM hRM hURC
  have hwhole := UpdatePositions_unpredicted K hHM hRM hURC s hno
  constructor
  · intro Cur Prev hc hpv
    rw [hwhole]
    exact hboth Cur Prev hc hpv
  · intro h
    rw [hwhole, hmiss h]

/-- Witness of C14: prediction is off and the local character moved from (0, 0) to
(100, 0) between the snapshots; at the fraction 1/2 the local position becomes (50, 0). -/
theorem snapshot_interpolation_witness :
    NoPrediction plainExternals predictOffClient
      ∧ (UpdateLocalCharacterPos plainExternals predictOffClient).m_LocalCharacterPos
          = mix ⟨((0 : ℤ) : ℚ), ((0 : ℤ) : ℚ)⟩ ⟨((100 : ℤ) : ℚ), ((0 : ℤ) : ℚ)⟩
              (predictOffClient.Client.IntraGameTick.get predictOffClient.g_Config.m_ClDummy)
      ∧ mix ⟨((0 : ℤ) : ℚ), ((0 : ℤ) : ℚ)⟩ ⟨((100 : ℤ) : ℚ), ((0 : ℤ) : ℚ)⟩ (1 / 2) = ⟨50, 0⟩ := by
  have hno : NoPrediction plainExternals predictOffClient := Or.inl rfl
  refine ⟨hno,
    (snapshot_interpolation plainExternals predictOffClient hno).1 ⟨100, 0⟩ ⟨0, 0⟩ rfl rfl, ?_⟩
  apply vec2_eq
  · rw [mix_x]
    norm_num
  · rw [mix_y]
    norm_num

/-- C18: for every state with prediction enabled and not in demo playback, the local
position that `UpdatePositions` assigns is the same whether anti-ping is on or off: it is
the blend of the predicted previous and current positions by the predicted intra-tick
fraction exactly when a local character exists and the game-over flag is not set, and the
previous local position otherwise. Replacing `AntiPingPlayers` by any other function
changes nothing of the state that the assignment leaves; and when the collaborators called
afterwards (`HandleMultiView`, `ResetMultiView`, `UpdateRenderedCharacters`) keep the
local position, it is the position that `UpdatePositions` returns with. -/
theorem antiping_same_local_pos {T : ExtTypes} (K : Externals T) (s : CGameClient T)
    (hp : s.g_Config.m_ClPredict ≠ 0) (hd : s.Client.State ≠ K.STATE_DEMOPLAYBACK) :
    (UpdateLocalCharacterPos K s).m_LocalCharacterPos
        = (if s.m_Snap.m_pLocalCharacter.isSome = true ∧ GameOverFlag K s = false then
            PredictedBlend s
          else s.m_LocalCharacterPos)
      ∧ (∀ f : CGameClient T → Bool,
          UpdateLocalCharacterPos { K with AntiPingPlayers := f } s
            = UpdateLocalCharacterPos K s)
      ∧ (KeepsLocalPos K.HandleMultiView → KeepsLocalPos K.ResetMultiView →
          KeepsLocalPos K.UpdateRenderedCharacters →
          (UpdatePositions K s).m_LocalCharacterPos
            = (if s.m_Snap.m_pLocalCharacter.isSome = true ∧ GameOverFlag K s = false then
                PredictedBlend s
              else s.m_LocalCharacterPos)) := by
  have hblock : (UpdateLocalCharacterPos K s).m_LocalCharacterPos
      = (if s.m_Snap.m_pLocalCharacter.isSome = true ∧ GameOverFlag K s = false then
          PredictedBlend s
        else s.m_LocalCharacterPos) := by
    rw [UpdateLocalCharacterPos_predicted K s hp hd]
    split_ifs <;> rfl
  refine ⟨hblock, ?_, ?_⟩
  · intro f
    rw [UpdateLocalCharacterPos_predicted K s hp hd,
      UpdateLocalCharacterPos_predicted { K with AntiPingPlayers := f } s hp hd]
    rfl
  · intro hHM hRM hURC
    rw [UpdatePositions_keeps K hHM hRM hURC s, hblock]

/-- Witness of C18: an online client that predicts, with a local character and the game not
over. -/
theorem antiping_same_local_pos_witness :
    predictingClient.g_Config.m_ClPredict ≠ 0
      ∧ predictingClient.Client.State ≠ plainExternals.STATE_DEMOPLAYBACK
      ∧ (UpdatePositions plainExternals predictingClient).m_LocalCharacterPos
          = (if predictingClient.m_Snap.m_pLocalCharacter.isSome = true
                ∧ GameOverFlag plainExternals predictingClient = false then
              PredictedBlend predictingClient
            else predictingClient.m_LocalCharacterPos) :=
  ⟨by decide, by decide,
    (antiping_same_local_pos plainExternals predictingClient (by decide) (by decide)).2.2
      (fun _ => rfl) (fun _ => rfl) (fun _ => rfl)⟩

end GameClient
